import Mathlib

/-!
Verification of the sentiment trend analytics engine of `kopi_sentiment`
(`src/kopi_sentiment/analytics/`): a shallow embedding in Lean 4 of the
Python modules `timeseries.py`, `momentum.py`, `velocity.py`, `config.py`,
`calibrate.py` and `calculator.py`, together with theorems settling the
specification's testable properties.

Modelling conventions:
* Python floats are modelled as real numbers (`ℝ`); Python ints as `ℤ`
  (or `ℕ` for list lengths, counts and index offsets).
* Exceptions (`ValueError` etc.) are modelled with `Except String`; the
  error string is the exception message built by the source.
* `statistics.mean` / `statistics.stdev` are the arithmetic mean and
  the sample standard deviation (square root of the sample variance).
* Dates are carried as opaque strings (`date.fromisoformat` is I/O glue
  and none of the verified properties inspect date values).
* External numeric library routines that are not algorithmically relevant
  to the properties (`math.erf` used only for the alert percentile field,
  `"{:.2f}"` string formatting of floats, and `scipy.stats.norm.ppf`) are
  taken as parameters of the functions that call them.
-/

namespace KopiSentiment

/-- Embeds `statistics.mean`: arithmetic mean of a list.  (`statistics.mean`
raises on an empty list; callers below only reach it with a non-empty
list or model the raise explicitly.) -/
noncomputable def listMean (xs : List ℝ) : ℝ := xs.sum / xs.length

/-- Sample variance (denominator `n - 1`), the square of `statistics.stdev`. -/
noncomputable def sampleVar (xs : List ℝ) : ℝ :=
  ((xs.map (fun x => (x - listMean xs) ^ 2)).sum) / ((xs.length : ℝ) - 1)

/-- Embeds `statistics.stdev`: sample standard deviation. -/
noncomputable def stdev (xs : List ℝ) : ℝ := Real.sqrt (sampleVar xs)

/-! ## Configuration (`config.py`) -/

/-- Embeds `IntensityConfig`: z-score mappings for intensity levels. -/
structure IntensityConfig where
  mild : ℝ
  moderate : ℝ
  strong : ℝ

/-- Embeds `CalibrationMetadata` (only carried, never read by the computations). -/
structure CalibrationMetadata where
  calibrated_at : String
  data_range_start : String
  data_range_end : String
  total_quotes_analyzed : ℤ

/-- Embeds `AlertThresholds`: z-score thresholds for alert levels. -/
structure AlertThresholds where
  notable : ℝ
  warning : ℝ
  alert : ℝ
  significant_z : ℝ

/-- Embeds `EngagementConfig`. -/
structure EngagementConfig where
  z_floor : ℝ

/-- Embeds `EMAConfig`. -/
structure EMAConfig where
  span : ℤ
  min_periods : ℤ

/-- Embeds `TrendConfig`. -/
structure TrendConfig where
  slope_stable_threshold : ℝ
  roc_weak_threshold : ℝ
  roc_strong_threshold : ℝ

/-- Embeds `MomentumConfig`: the ROC lookbacks are index offsets into the series. -/
structure MomentumConfig where
  roc_1d_lookback : ℕ
  roc_3d_lookback : ℕ
  roc_7d_lookback : ℕ

/-- Embeds `VelocityConfig`. -/
structure VelocityConfig where
  lookback_days : ℤ

/-- Embeds `PipelineConfig`. -/
structure PipelineConfig where
  min_days_required : ℤ

/-- Embeds `AnalyticsConfig` (the `commentary` sub-config is LLM glue, unused by
the analytics computations, and omitted). -/
structure AnalyticsConfig where
  version : String
  intensity_z_scores : IntensityConfig
  calibration : CalibrationMetadata
  alert_thresholds : AlertThresholds
  engagement : EngagementConfig
  ema : EMAConfig
  trend : TrendConfig
  momentum : MomentumConfig
  velocity : VelocityConfig
  pipeline : PipelineConfig

/-- The pydantic field defaults of `config.py`, with the calibrated
intensity z-scores of the worked example in `METHODOLOGY`/spec. -/
noncomputable def defaultConfig : AnalyticsConfig where
  version := "1.0"
  intensity_z_scores := ⟨-0.67, 0.39, 1.28⟩
  calibration := ⟨"2025-01-01", "2025-01-01", "2025-01-01", 100⟩
  alert_thresholds := ⟨1.0, 1.5, 2.0, 2.0⟩
  engagement := ⟨-2.0⟩
  ema := ⟨7, 3⟩
  trend := ⟨0.5, 10, 25⟩
  momentum := ⟨2, 4, 8⟩
  velocity := ⟨7⟩
  pipeline := ⟨3⟩

/-- Embeds `config.get_intensity_z`: dictionary lookup over exactly the three
valid labels; any other string raises
`ValueError(f"Unknown intensity: {intensity}. Expected mild/moderate/strong.")`. -/
def get_intensity_z (intensity : String) (config : AnalyticsConfig) :
    Except String ℝ :=
  if intensity = "mild" then .ok config.intensity_z_scores.mild
  else if intensity = "moderate" then .ok config.intensity_z_scores.moderate
  else if intensity = "strong" then .ok config.intensity_z_scores.strong
  else .error ("Unknown intensity: " ++ intensity ++ ". Expected mild/moderate/strong.")

/-- Alert severity levels (`AlertSeverity` in `models.py`). -/
inductive AlertSeverity where
  | none
  | notable
  | warning
  | alert
deriving DecidableEq, Repr

/-- Trend directions (`TrendDirection` in `models.py`). -/
inductive TrendDirection where
  | rising
  | falling
  | stable
deriving DecidableEq, Repr

/-- Embeds `config.get_alert_severity`: highest threshold met by `|z|` wins. -/
noncomputable def get_alert_severity (z_score : ℝ) (config : AnalyticsConfig) :
    AlertSeverity :=
  let abs_z := |z_score|
  let thresholds := config.alert_thresholds
  if abs_z ≥ thresholds.alert then .alert
  else if abs_z ≥ thresholds.warning then .warning
  else if abs_z ≥ thresholds.notable then .notable
  else .none

/-! ## Data model (`models.py`) -/

/-- One quote as consumed by the analytics: its `comment_score`
(engagement) and `intensity` label. -/
structure Quote where
  comment_score : ℤ
  intensity : String

/-- One day's raw report: `date_id` plus `all_quotes` for the three
FFO categories. -/
structure DayData where
  date_id : String
  fears : List Quote
  frustrations : List Quote
  optimism : List Quote

/-- The quotes of a day in the iteration order of
`["fears", "frustrations", "optimism"]`. -/
def DayData.allQuotes (d : DayData) : List Quote :=
  d.fears ++ d.frustrations ++ d.optimism

/-- Engagement statistics passed into the time-series builder. -/
structure EngagementStats where
  mean : ℝ
  std : ℝ

/-- Embeds `DailySentimentScore`. -/
structure DailySentimentScore where
  date : String
  fears_count : ℕ
  frustrations_count : ℕ
  optimism_count : ℕ
  total_quotes : ℕ
  fears_zscore_sum : ℝ
  frustrations_zscore_sum : ℝ
  optimism_zscore_sum : ℝ
  negativity_score : ℝ
  positivity_score : ℝ
  composite_score : ℝ
  ema_score : Option ℝ
  ema_negativity : Option ℝ
  ema_positivity : Option ℝ
  total_engagement : ℤ
  avg_engagement : ℝ

instance : Inhabited DailySentimentScore :=
  ⟨⟨"", 0, 0, 0, 0, 0, 0, 0, 0, 0, 0, Option.none, Option.none, Option.none, 0, 0⟩⟩

/-- Embeds `SentimentTimeSeries`. -/
structure SentimentTimeSeries where
  start_date : String
  end_date : String
  data_points : List DailySentimentScore
  mean_score : ℝ
  std_dev : ℝ
  min_score : ℝ
  max_score : ℝ
  overall_trend : TrendDirection
  trend_slope : ℝ
  trend_r_squared : ℝ

instance : Inhabited SentimentTimeSeries :=
  ⟨⟨"", "", [], 0, 0, 0, 0, .stable, 0, 0⟩⟩

/-! ## Time series builder (`timeseries.py`) -/

/-- Embeds `TimeSeriesBuilder._calculate_engagement_z`: z-score with floor. -/
noncomputable def calculate_engagement_z (engagement : ℤ) (stats : EngagementStats)
    (config : AnalyticsConfig) : ℝ :=
  let z : ℝ := if stats.std > 0 then ((engagement : ℝ) - stats.mean) / stats.std else 0
  max z config.engagement.z_floor

/-- The inner loop of `_calculate_daily_score` for one category: the sum of
`engagement_z + intensity_z` over the category's quotes.  The Python loop
raises out of the whole function at the first quote with an unknown
intensity label; the recursion propagates the first error the same way. -/
noncomputable def categoryZSum (config : AnalyticsConfig) (stats : EngagementStats) :
    List Quote → Except String ℝ
  | [] => .ok 0
  | quote :: rest => do
    let intensity_z ← get_intensity_z quote.intensity config
    let engagement_z := calculate_engagement_z quote.comment_score stats config
    let restSum ← categoryZSum config stats rest
    pure (engagement_z + intensity_z + restSum)

/-- Total engagement accumulated by `_calculate_daily_score` across all
three category loops. -/
def dayTotalEngagement (day : DayData) : ℤ :=
  (day.allQuotes.map (·.comment_score)).sum

/-- Embeds `TimeSeriesBuilder._calculate_daily_score`. -/
noncomputable def calculate_daily_score (config : AnalyticsConfig)
    (stats : EngagementStats) (day : DayData) : Except String DailySentimentScore := do
  let fearsSum ← categoryZSum config stats day.fears
  let frustrationsSum ← categoryZSum config stats day.frustrations
  let optimismSum ← categoryZSum config stats day.optimism
  let negativity := fearsSum + frustrationsSum
  let positivity := optimismSum
  let composite := positivity - negativity
  let total_quotes := day.fears.length + day.frustrations.length + day.optimism.length
  let total_engagement := dayTotalEngagement day
  pure {
    date := day.date_id
    fears_count := day.fears.length
    frustrations_count := day.frustrations.length
    optimism_count := day.optimism.length
    total_quotes := total_quotes
    fears_zscore_sum := fearsSum
    frustrations_zscore_sum := frustrationsSum
    optimism_zscore_sum := optimismSum
    negativity_score := negativity
    positivity_score := positivity
    composite_score := composite
    ema_score := Option.none
    ema_negativity := Option.none
    ema_positivity := Option.none
    total_engagement := total_engagement
    avg_engagement := if total_quotes > 0 then (total_engagement : ℝ) / total_quotes else 0
  }

/-- The value the `_apply_ema` loop leaves at index `i` for one channel of
raw values `raw`.  The loop carries the previous iteration's smoothed value;
`emaVal i` is that carried value after iteration `i`: `None` while
`i < min_periods - 1`, the arithmetic mean of `raw[: i + 1]` at
`i = min_periods - 1`, and otherwise `α·raw[i] + (1 - α)·prev` when the
previous value is set (`None` is carried through unchanged, exactly as the
source's `if prev.ema_score is not None` guard does). -/
noncomputable def emaVal (min_periods : ℤ) (alpha : ℝ) (raw : List ℝ) : ℕ → Option ℝ
  | 0 =>
    if (0 : ℤ) < min_periods - 1 then Option.none
    else if (0 : ℤ) = min_periods - 1 then some (listMean (raw.take 1))
    else Option.none
  | i + 1 =>
    if ((i : ℤ) + 1) < min_periods - 1 then Option.none
    else if ((i : ℤ) + 1) = min_periods - 1 then some (listMean (raw.take (i + 2)))
    else
      match emaVal min_periods alpha raw i with
      | some prev => some (alpha * raw.getD (i + 1) 0 + (1 - alpha) * prev)
      | Option.none => Option.none

/-- Writes the three smoothed channels back into the data points
(the structural form of the in-place mutation of `_apply_ema`). -/
def setEmas : List DailySentimentScore → List (Option ℝ) → List (Option ℝ) →
    List (Option ℝ) → List DailySentimentScore
  | dp :: rest, c :: cs, n :: ns, p :: ps =>
    { dp with ema_score := c, ema_negativity := n, ema_positivity := p } ::
      setEmas rest cs ns ps
  | dps, _, _, _ => dps

/-- Embeds `TimeSeriesBuilder._apply_ema`: smooths the composite, negativity and
positivity channels independently. -/
noncomputable def apply_ema (config : AnalyticsConfig)
    (data_points : List DailySentimentScore) : List DailySentimentScore :=
  let min_periods := config.ema.min_periods
  let alpha : ℝ := 2 / ((config.ema.span : ℝ) + 1)
  let composites := data_points.map (·.composite_score)
  let negativities := data_points.map (·.negativity_score)
  let positivities := data_points.map (·.positivity_score)
  setEmas data_points
    ((List.range data_points.length).map (emaVal min_periods alpha composites))
    ((List.range data_points.length).map (emaVal min_periods alpha negativities))
    ((List.range data_points.length).map (emaVal min_periods alpha positivities))

/-- The `x_mean` local of `_linear_regression`: the mean of the index list
`x = [0, 1, …, n−1]`. -/
noncomputable def regXMean (values : List ℝ) : ℝ :=
  (∑ i ∈ Finset.range values.length, (i : ℝ)) / values.length

/-- The `numerator` local of `_linear_regression`:
`sum((x[i] − x_mean) * (values[i] − y_mean))`. -/
noncomputable def regNum (values : List ℝ) : ℝ :=
  ∑ i ∈ Finset.range values.length,
    ((i : ℝ) - regXMean values) * (values.getD i 0 - listMean values)

/-- The `denominator` local of `_linear_regression`:
`sum((x[i] − x_mean) ** 2)`. -/
noncomputable def regDen (values : List ℝ) : ℝ :=
  ∑ i ∈ Finset.range values.length, ((i : ℝ) - regXMean values) ^ 2

/-- The `ss_tot` local of `_linear_regression`:
`sum((y − y_mean) ** 2 for y in values)`. -/
noncomputable def ssTot (values : List ℝ) : ℝ :=
  (values.map (fun v => (v - listMean values) ^ 2)).sum

/-- The `ss_res` local of `_linear_regression` at a given slope, with the
source's `intercept = y_mean − slope·x_mean` and
`predictions[i] = slope·x[i] + intercept`. -/
noncomputable def ssRes (values : List ℝ) (slope : ℝ) : ℝ :=
  ∑ i ∈ Finset.range values.length,
    (values.getD i 0 -
      (slope * i + (listMean values - slope * regXMean values))) ^ 2

/-- Embeds `TimeSeriesBuilder._linear_regression`: ordinary least squares of the
values against the index `0, 1, 2, …`; returns `(slope, r_squared)`.  The
locals of the source are the named definitions above. -/
noncomputable def linear_regression (values : List ℝ) : ℝ × ℝ :=
  if values.length < 2 then (0.0, 0.0)
  else if regDen values = 0 then (0.0, 0.0)
  else
    let slope := regNum values / regDen values
    if ssTot values = 0 then (slope, 1.0)
    else (slope, max 0 (1 - ssRes values slope / ssTot values))

/-- Embeds `TimeSeriesBuilder._classify_trend`. -/
noncomputable def classify_trend (slope : ℝ) (config : AnalyticsConfig) : TrendDirection :=
  if |slope| < config.trend.slope_stable_threshold then .stable
  else if slope > 0 then .rising else .falling

/-- The list comprehension of `TimeSeriesBuilder.build` mapping
`_calculate_daily_score` over the days, propagating the first raised error. -/
noncomputable def mapDailyScores (config : AnalyticsConfig) (stats : EngagementStats) :
    List DayData → Except String (List DailySentimentScore)
  | [] => .ok []
  | day :: rest => do
    let dp ← calculate_daily_score config stats day
    let dps ← mapDailyScores config stats rest
    pure (dp :: dps)

/-- Embeds `min` of a non-empty list as Python's `min` (head as the default). -/
noncomputable def listMin (xs : List ℝ) : ℝ := xs.foldl min (xs.headD 0)

/-- Embeds `max` of a non-empty list as Python's `max`. -/
noncomputable def listMax (xs : List ℝ) : ℝ := xs.foldl max (xs.headD 0)

/-- Embeds `TimeSeriesBuilder.build`.  `statistics.mean` raises on an empty list,
so an empty input surfaces as an error (its `StatisticsError` message). -/
noncomputable def timeSeriesBuild (config : AnalyticsConfig)
    (daily_data : List DayData) (engagement_stats : EngagementStats) :
    Except String SentimentTimeSeries := do
  let raw ← mapDailyScores config engagement_stats daily_data
  let data_points := apply_ema config raw
  if data_points.isEmpty then
    .error "mean requires at least one data point"
  else
    let scores := data_points.map (·.composite_score)
    let mean_score := listMean scores
    let std_score := if scores.length > 1 then stdev scores else 0
    let sr := linear_regression scores
    let trend := classify_trend sr.1 config
    pure {
      start_date := (data_points.headD default).date
      end_date := (data_points.getLastD default).date
      data_points := data_points
      mean_score := mean_score
      std_dev := std_score
      min_score := listMin scores
      max_score := listMax scores
      overall_trend := trend
      trend_slope := sr.1
      trend_r_squared := sr.2
    }

/-! ## Momentum calculator (`momentum.py`) -/

/-- Embeds `CategoryMomentum`. -/
structure CategoryMomentum where
  category : String
  current_count : ℕ
  current_zscore_sum : ℝ
  roc_1d : ℝ
  roc_3d : ℝ
  roc_7d : ℝ
  ema_momentum : ℝ
  trend : TrendDirection
  trend_strength : String

/-- Embeds `MomentumReport`. -/
structure MomentumReport where
  report_date : String
  lookback_days : ℕ
  fears : CategoryMomentum
  frustrations : CategoryMomentum
  optimism : CategoryMomentum
  fastest_rising : String
  fastest_falling : String

/-- Embeds `MomentumCalculator._rate_of_change`.  When the series is shorter than
the lookback the source calls itself once with `lookback = len(values)`.
Python's `values[-lookback]` for `lookback = 0` is `values[0]`; for
`lookback ≥ 1` it is `values[len - lookback]` (out-of-range only for an
empty list, where Python would raise; the `getD` default is unreachable
for non-empty input). -/
noncomputable def rate_of_change (current : ℝ) (values : List ℝ) (lookback : ℕ) : ℝ :=
  if h : values.length < lookback then rate_of_change current values values.length
  else
    let past := if lookback = 0 then values.getD 0 0
                else values.getD (values.length - lookback) 0
    if past = 0 then (if current = 0 then 0.0 else 100.0)
    else ((current - past) / |past|) * 100
termination_by lookback
decreasing_by exact h

/-- Embeds `MomentumCalculator._calculate_ema_momentum`: EMA of the day-over-day
deltas, seeded with the first delta. -/
noncomputable def calculate_ema_momentum (config : AnalyticsConfig)
    (values : List ℝ) : ℝ :=
  if values.length < 2 then 0.0
  else
    let daily_changes := List.zipWith (fun a b => a - b) values.tail values
    let span : ℤ := min config.ema.span (daily_changes.length : ℤ)
    let alpha : ℝ := 2 / ((span : ℝ) + 1)
    (daily_changes.tail).foldl (fun ema v => alpha * v + (1 - alpha) * ema)
      (daily_changes.headD 0)

/-- Embeds `MomentumCalculator._classify_trend`: direction and strength from the
7-offset rate of change. -/
noncomputable def momentum_classify_trend (config : AnalyticsConfig) (roc_7d : ℝ) :
    TrendDirection × String :=
  if |roc_7d| < config.trend.roc_weak_threshold then (.stable, "weak")
  else
    let direction := if roc_7d > 0 then TrendDirection.rising else TrendDirection.falling
    let strength := if |roc_7d| > config.trend.roc_strong_threshold
      then "strong" else "moderate"
    (direction, strength)

/-- The z-score-sum sub-series of one category. -/
def categoryValues (data : List DailySentimentScore) : String → List ℝ
  | "fears" => data.map (·.fears_zscore_sum)
  | "frustrations" => data.map (·.frustrations_zscore_sum)
  | _ => data.map (·.optimism_zscore_sum)

/-- The per-category quote count of the latest data point. -/
def categoryCount (dp : DailySentimentScore) : String → ℕ
  | "fears" => dp.fears_count
  | "frustrations" => dp.frustrations_count
  | _ => dp.optimism_count

/-- Embeds `MomentumCalculator._calculate_category_momentum`. -/
noncomputable def calculate_category_momentum (config : AnalyticsConfig)
    (data : List DailySentimentScore) (category : String) : CategoryMomentum :=
  let values := categoryValues data category
  let current := values.getLastD 0
  let current_count := categoryCount (data.getLastD default) category
  let roc_1d := rate_of_change current values config.momentum.roc_1d_lookback
  let roc_3d := rate_of_change current values config.momentum.roc_3d_lookback
  let roc_7d := rate_of_change current values config.momentum.roc_7d_lookback
  let ema_momentum := calculate_ema_momentum config values
  let ts := momentum_classify_trend config roc_7d
  { category := category
    current_count := current_count
    current_zscore_sum := current
    roc_1d := roc_1d
    roc_3d := roc_3d
    roc_7d := roc_7d
    ema_momentum := ema_momentum
    trend := ts.1
    trend_strength := ts.2 }

/-- Python's `max(rocs, key=rocs.get)` over the insertion-ordered dict:
the first key attaining the maximum wins. -/
noncomputable def maxByRoc (pairs : List (String × ℝ)) : String :=
  (pairs.foldl (fun best c => if c.2 > best.2 then c else best)
    (pairs.headD ("", 0))).1

/-- Python's `min(rocs, key=rocs.get)`: the first key attaining the minimum. -/
noncomputable def minByRoc (pairs : List (String × ℝ)) : String :=
  (pairs.foldl (fun best c => if c.2 < best.2 then c else best)
    (pairs.headD ("", 0))).1

/-- Embeds `MomentumCalculator.calculate`. -/
noncomputable def momentumCalculate (config : AnalyticsConfig)
    (timeseries : SentimentTimeSeries) : MomentumReport :=
  let data := timeseries.data_points
  let report_date := (data.getLastD default).date
  let fears := calculate_category_momentum config data "fears"
  let frustrations := calculate_category_momentum config data "frustrations"
  let optimism := calculate_category_momentum config data "optimism"
  let rocs := [("fears", fears.roc_7d), ("frustrations", frustrations.roc_7d),
    ("optimism", optimism.roc_7d)]
  { report_date := report_date
    lookback_days := min 7 data.length
    fears := fears
    frustrations := frustrations
    optimism := optimism
    fastest_rising := maxByRoc rocs
    fastest_falling := minByRoc rocs }

/-! ## Velocity calculator (`velocity.py`) -/

/-- External float primitives of `velocity.py` that are not algorithmically
relevant to the verified properties: `math.erf` (used only for the alert's
percentile field) and `"{:.2f}"` float formatting (used only inside the
alert's description string). -/
structure FloatOps where
  erf : ℝ → ℝ
  fmt2 : ℝ → String

/-- Embeds `VelocityMetric`. -/
structure VelocityMetric where
  metric_name : String
  current_value : ℝ
  velocity : ℝ
  velocity_zscore : ℝ
  acceleration : ℝ
  historical_mean : ℝ
  historical_std : ℝ
  alert_level : AlertSeverity

instance : Inhabited VelocityMetric := ⟨⟨"", 0, 0, 0, 0, 0, 0, .none⟩⟩

/-- Embeds `TrendVelocityAlert`.  `alert_id` is a random uuid in the source
(external randomness); it is modelled as the empty string. -/
structure TrendVelocityAlert where
  alert_id : String
  triggered_at : String
  severity : AlertSeverity
  metric : String
  category : Option String
  current_value : ℝ
  expected_value : ℝ
  z_score : ℝ
  percentile : ℝ
  direction : TrendDirection
  description : String

/-- Embeds `VelocityReport`. -/
structure VelocityReport where
  report_date : String
  lookback_days : ℤ
  metrics : List VelocityMetric
  alerts : List TrendVelocityAlert
  total_alerts : ℕ
  alert_count : ℕ
  warning_count : ℕ

/-- Embeds `VelocityCalculator._z_to_percentile`. -/
noncomputable def z_to_percentile (ops : FloatOps) (z : ℝ) : ℝ :=
  50 * (1 + ops.erf (z / Real.sqrt 2))

/-- Embeds `VelocityCalculator._alert_description`. -/
noncomputable def alert_description (ops : FloatOps) (config : AnalyticsConfig)
    (metric : String) (z_score : ℝ) (direction : TrendDirection)
    (category : Option String) : String :=
  let magnitude := if |z_score| ≥ config.alert_thresholds.significant_z
    then "significantly" else "notably"
  let dir_word := if direction = TrendDirection.rising then "increased" else "decreased"
  match category with
  | some c =>
    c.capitalize ++ " has " ++ magnitude ++ " " ++ dir_word ++ " (z=" ++ ops.fmt2 z_score ++ ")"
  | Option.none =>
    "Overall sentiment has " ++ magnitude ++ " " ++ dir_word ++ " (z=" ++ ops.fmt2 z_score ++ ")"

/-- Embeds `VelocityCalculator._create_alert`. -/
noncomputable def create_alert (ops : FloatOps) (config : AnalyticsConfig)
    (metric_name : String) (category : Option String) (current_velocity : ℝ)
    (expected : ℝ) (z_score : ℝ) (report_date : String) : TrendVelocityAlert :=
  let direction := if z_score > 0 then TrendDirection.rising else TrendDirection.falling
  { alert_id := ""
    triggered_at := report_date
    severity := get_alert_severity z_score config
    metric := metric_name
    category := category
    current_value := current_velocity
    expected_value := expected
    z_score := z_score
    percentile := z_to_percentile ops z_score
    direction := direction
    description := alert_description ops config metric_name z_score direction category }

/-- Embeds `VelocityCalculator._empty_metric`. -/
noncomputable def empty_metric (metric_name : String) (values : List ℝ) : VelocityMetric :=
  { metric_name := metric_name
    current_value := values.getLastD 0
    velocity := 0
    velocity_zscore := 0
    acceleration := 0
    historical_mean := 0
    historical_std := 0
    alert_level := .none }

/-- The first differences (`velocities`) of a metric series. -/
noncomputable def velocities (values : List ℝ) : List ℝ :=
  List.zipWith (fun a b => a - b) values.tail values

/-- Embeds `VelocityCalculator._calculate_metric`. -/
noncomputable def calculate_metric (ops : FloatOps) (config : AnalyticsConfig)
    (metric_name : String) (values : List ℝ) (category : Option String)
    (report_date : String) : VelocityMetric × Option TrendVelocityAlert :=
  if values.length < 2 then (empty_metric metric_name values, Option.none)
  else
    let vels := velocities values
    let current_velocity := vels.getLastD 0
    let hist_velocities := if vels.length > 1 then vels.dropLast else vels
    let hist_mean := listMean hist_velocities
    let hist_std := if hist_velocities.length > 1 then stdev hist_velocities else 1
    let velocity_zscore :=
      if hist_std > 0 then (current_velocity - hist_mean) / hist_std else 0
    let acceleration :=
      if vels.length ≥ 2 then vels.getLastD 0 - vels.getD (vels.length - 2) 0 else 0
    let alert_level := get_alert_severity velocity_zscore config
    let metric : VelocityMetric :=
      { metric_name := metric_name
        current_value := values.getLastD 0
        velocity := current_velocity
        velocity_zscore := velocity_zscore
        acceleration := acceleration
        historical_mean := hist_mean
        historical_std := hist_std
        alert_level := alert_level }
    let alert := if alert_level = AlertSeverity.warning ∨ alert_level = AlertSeverity.alert
      then some (create_alert ops config metric_name category current_velocity
        hist_mean velocity_zscore report_date)
      else Option.none
    (metric, alert)

/-- Embeds `VelocityCalculator._sort_alerts`'s severity ranking. -/
def severityOrder : AlertSeverity → ℕ
  | .alert => 0
  | .warning => 1
  | .notable => 2
  | .none => 3

/-- Stable insertion of an alert before the first strictly-lower-ranked one
(an element being inserted came earlier in the original list than everything
already inserted, so it goes before equal-ranked elements). -/
def insertAlert (a : TrendVelocityAlert) : List TrendVelocityAlert →
    List TrendVelocityAlert
  | [] => [a]
  | b :: rest =>
    if severityOrder a.severity ≤ severityOrder b.severity then a :: b :: rest
    else b :: insertAlert a rest

/-- Embeds `VelocityCalculator._sort_alerts`: Python's `sorted` is a stable sort by
key; a stable insertion sort produces the identical list. -/
def sort_alerts : List TrendVelocityAlert → List TrendVelocityAlert
  | [] => []
  | a :: rest => insertAlert a (sort_alerts rest)

/-- Embeds `VelocityCalculator.METRIC_CONFIGS`. -/
def METRIC_CONFIGS : List (String × Option String) :=
  [("composite_score", Option.none), ("fears_zscore_sum", some "fears"),
   ("frustrations_zscore_sum", some "frustrations"),
   ("optimism_zscore_sum", some "optimism")]

/-- The attribute extraction `getattr(dp, attr)` for the four tracked metrics. -/
def metricValues (data : List DailySentimentScore) : String → List ℝ
  | "composite_score" => data.map (·.composite_score)
  | "fears_zscore_sum" => data.map (·.fears_zscore_sum)
  | "frustrations_zscore_sum" => data.map (·.frustrations_zscore_sum)
  | _ => data.map (·.optimism_zscore_sum)

/-- Embeds `VelocityCalculator.calculate`. -/
noncomputable def velocityCalculate (ops : FloatOps) (config : AnalyticsConfig)
    (timeseries : SentimentTimeSeries) : VelocityReport :=
  let data := timeseries.data_points
  let report_date := (data.getLastD default).date
  let results := METRIC_CONFIGS.map (fun mc =>
    calculate_metric ops config mc.1 (metricValues data mc.1) mc.2 report_date)
  let metrics := results.map (·.1)
  let alerts := sort_alerts (results.filterMap (·.2))
  { report_date := report_date
    lookback_days := min config.velocity.lookback_days (data.length : ℤ)
    metrics := metrics
    alerts := alerts
    total_alerts := alerts.length
    alert_count := (alerts.filter (fun a => a.severity = AlertSeverity.alert)).length
    warning_count := (alerts.filter (fun a => a.severity = AlertSeverity.warning)).length }

/-! ## Analytics calculator (`calculator.py`) -/

/-- Embeds `AnalyticsCalculator._compute_engagement_stats`: mean and sample std of
the engagement of every quote across all days. -/
noncomputable def compute_engagement_stats (daily_data : List DayData) :
    EngagementStats :=
  let all_scores : List ℝ :=
    (daily_data.map (fun d => d.allQuotes.map (fun q => (q.comment_score : ℝ)))).flatten
  if all_scores.length < 2 then ⟨0, 1⟩
  else ⟨listMean all_scores, if all_scores.length > 1 then stdev all_scores else 1⟩

/-- The algorithmic core of the report (`AnalyticsReport` minus the
headline/insight/commentary strings and optional entity trends, which are
downstream text formatting over these numbers). -/
structure AnalyticsReportCore where
  data_range_start : String
  data_range_end : String
  days_analyzed : ℕ
  sentiment_timeseries : SentimentTimeSeries
  momentum : MomentumReport
  velocity : VelocityReport

/-- The insufficient-data `ValueError` message of
`AnalyticsCalculator.generate_report`. -/
def insufficientDataMsg (min_days : ℤ) (found : ℕ) : String :=
  "Need at least " ++ toString min_days ++ " days of data, found " ++ toString found

/-- Embeds `AnalyticsCalculator.generate_report`, from the already-loaded daily
data to the report core (loading the JSON files and the trailing
headline/insights/commentary formatting are I/O glue outside the model). -/
noncomputable def generate_report (ops : FloatOps) (config : AnalyticsConfig)
    (daily_data : List DayData) : Except String AnalyticsReportCore :=
  let min_days := config.pipeline.min_days_required
  if (daily_data.length : ℤ) < min_days then
    .error (insufficientDataMsg min_days daily_data.length)
  else do
    let engagement_stats := compute_engagement_stats daily_data
    let timeseries ← timeSeriesBuild config daily_data engagement_stats
    let momentum := momentumCalculate config timeseries
    let velocity := velocityCalculate ops config timeseries
    pure {
      data_range_start := timeseries.start_date
      data_range_end := timeseries.end_date
      days_analyzed := timeseries.data_points.length
      sentiment_timeseries := timeseries
      momentum := momentum
      velocity := velocity }

/-! ## Calibration (`calibrate.py`) -/

/-- Python's `round` to an integer: round half to even. -/
noncomputable def roundHalfEven (x : ℝ) : ℤ :=
  if x - ⌊x⌋ < 1 / 2 then ⌊x⌋
  else if x - ⌊x⌋ > 1 / 2 then ⌊x⌋ + 1
  else if Even ⌊x⌋ then ⌊x⌋ else ⌊x⌋ + 1

/-- Python's `round(x, 2)`. -/
noncomputable def round2 (x : ℝ) : ℝ := (roundHalfEven (100 * x) : ℝ) / 100

/-- Python's `round(x, 1)`. -/
noncomputable def round1 (x : ℝ) : ℝ := (roundHalfEven (10 * x) : ℝ) / 10

/-- Counts of the three intensity labels (`count_intensity_distribution`). -/
structure IntensityCounts where
  mild : ℕ
  moderate : ℕ
  strong : ℕ

/-- Total observations of an `IntensityCounts`. -/
def IntensityCounts.total (c : IntensityCounts) : ℕ := c.mild + c.moderate + c.strong

/-- The three midpoint cumulative percentiles of `compute_z_scores`
(exact rationals; `total ≠ 0` at every use site). -/
def midPercentiles (counts : IntensityCounts) : ℚ × ℚ × ℚ :=
  let total : ℚ := counts.total
  let pct_mild : ℚ := counts.mild / total
  let pct_moderate : ℚ := counts.moderate / total
  let pct_strong : ℚ := counts.strong / total
  (pct_mild / 2, pct_mild + pct_moderate / 2, pct_mild + pct_moderate + pct_strong / 2)

/-- Embeds `calibrate.compute_z_scores`, parameterised by `scipy.stats.norm.ppf`
(the probit, an external numeric routine).  Note the three clamp guards of
the source: `mild` falls back to `-2.5` when its midpoint is not `> 0`,
`moderate` falls back to `0` when its midpoint is not strictly inside
`(0, 1)`, and `strong` falls back to `2.5` when its midpoint is not `< 1`. -/
noncomputable def compute_z_scores (ppf : ℚ → ℝ) (counts : IntensityCounts) :
    Except String IntensityConfig :=
  if counts.total = 0 then .error "No quotes found in data"
  else
    let mids := midPercentiles counts
    let z_mild : ℝ := if 0 < mids.1 then ppf mids.1 else -2.5
    let z_moderate : ℝ := if 0 < mids.2.1 ∧ mids.2.1 < 1 then ppf mids.2.1 else 0
    let z_strong : ℝ := if mids.2.2 < 1 then ppf mids.2.2 else 2.5
    .ok ⟨round2 z_mild, round2 z_moderate, round2 z_strong⟩

/-- A JSON value as far as `update_config` manipulates the loaded config
dict: numbers, strings and string-keyed objects. -/
inductive JVal where
  | num (x : ℝ)
  | str (s : String)
  | obj (fields : String → Option JVal)

/-- A loaded JSON config file: its top-level dict. -/
def JConfig : Type := String → Option JVal

/-- Dict item assignment `d[k] = v`. -/
def setKey (f : String → Option JVal) (k : String) (v : JVal) :
    String → Option JVal :=
  fun k2 => if k2 = k then some v else f k2

/-- Dict item access `d[k]` expecting a sub-dict (Python raises a
`KeyError`/`TypeError` otherwise, modelled as `none`). -/
def getObj : Option JVal → Option (String → Option JVal)
  | some (.obj f) => some f
  | _ => Option.none

/-- Embeds `calibrate.update_config`: writes the three z-scores into the
`intensity_z_scores` sub-dict and the metadata into the `calibration`
sub-dict of the loaded config, and returns the updated config.  (Python
mutates the nested dicts in place; re-binding the two outer keys to the
updated sub-dicts is the same resulting mapping.) -/
noncomputable def update_config (config : JConfig) (z_scores : IntensityConfig)
    (counts : IntensityCounts) (data_range : String × String) (today : String) :
    Option JConfig := do
  let iz ← getObj (config "intensity_z_scores")
  let iz := setKey iz "mild" (.num z_scores.mild)
  let iz := setKey iz "moderate" (.num z_scores.moderate)
  let iz := setKey iz "strong" (.num z_scores.strong)
  let cal ← getObj (config "calibration")
  let total := counts.total
  let distribution : String → Option JVal := fun k =>
    if k = "mild" then some (.num (round1 ((counts.mild : ℝ) / total * 100)))
    else if k = "moderate" then some (.num (round1 ((counts.moderate : ℝ) / total * 100)))
    else if k = "strong" then some (.num (round1 ((counts.strong : ℝ) / total * 100)))
    else Option.none
  let cal := setKey cal "calibrated_at" (.str today)
  let cal := setKey cal "data_range_start" (.str data_range.1)
  let cal := setKey cal "data_range_end" (.str data_range.2)
  let cal := setKey cal "total_quotes_analyzed" (.num total)
  let cal := setKey cal "distribution" (.obj distribution)
  pure (setKey (setKey config "intensity_z_scores" (.obj iz)) "calibration" (.obj cal))

/-! ## Theorems -/

theorem string_data_append (a b : String) : (a ++ b).data = a.data ++ b.data := rfl

/-- A quote whose intensity a successful `categoryZSum` consumed carries one
of the three valid labels. -/
theorem categoryZSum_ok_valid (config : AnalyticsConfig) (stats : EngagementStats) :
    ∀ (quotes : List Quote) (r : ℝ), categoryZSum config stats quotes = .ok r →
    ∀ q ∈ quotes,
      q.intensity = "mild" ∨ q.intensity = "moderate" ∨ q.intensity = "strong" := by
  intro quotes
  induction quotes with
  | nil => intro r _ q hq; exact absurd hq (List.not_mem_nil q)
  | cons quote rest ih =>
    intro r hok q hq
    by_cases h1 : quote.intensity = "mild"
    · rcases List.mem_cons.mp hq with hq | hq
      · exact Or.inl (hq ▸ h1)
      · simp only [categoryZSum, get_intensity_z, h1, if_pos, bind,
          Except.bind] at hok
        cases h2 : categoryZSum config stats rest with
        | error e => rw [h2] at hok; exact absurd hok (by simp)
        | ok r2 => exact ih r2 h2 q hq
    · by_cases h2 : quote.intensity = "moderate"
      · rcases List.mem_cons.mp hq with hq | hq
        · exact Or.inr (Or.inl (hq ▸ h2))
        · simp only [categoryZSum, get_intensity_z, h1, h2, if_pos, if_neg,
            bind, Except.bind] at hok
          cases h3 : categoryZSum config stats rest with
          | error e => rw [h3] at hok; exact absurd hok (by simp)
          | ok r2 => exact ih r2 h3 q hq
      · by_cases h3 : quote.intensity = "strong"
        · rcases List.mem_cons.mp hq with hq | hq
          · exact Or.inr (Or.inr (hq ▸ h3))
          · simp only [categoryZSum, get_intensity_z, h1, h2, h3, if_pos, if_neg,
              bind, Except.bind] at hok
            cases h4 : categoryZSum config stats rest with
            | error e => rw [h4] at hok; exact absurd hok (by simp)
            | ok r2 => exact ih r2 h4 q hq
        · simp only [categoryZSum, get_intensity_z, h1, h2, h3, if_neg, bind,
            Except.bind] at hok
          exact absurd hok (by simp)

/-- A successful `_calculate_daily_score` implies every quote of the day
carries a valid intensity label. -/
theorem calculate_daily_score_ok_valid (config : AnalyticsConfig)
    (stats : EngagementStats) (day : DayData) (dp : DailySentimentScore)
    (hok : calculate_daily_score config stats day = .ok dp) :
    ∀ q ∈ day.allQuotes,
      q.intensity = "mild" ∨ q.intensity = "moderate" ∨ q.intensity = "strong" := by
  intro q hq
  simp only [calculate_daily_score, bind, Except.bind] at hok
  cases h1 : categoryZSum config stats day.fears with
  | error e => rw [h1] at hok; exact absurd hok (by simp)
  | ok r1 =>
    rw [h1] at hok
    cases h2 : categoryZSum config stats day.frustrations with
    | error e => rw [h2] at hok; exact absurd hok (by simp)
    | ok r2 =>
      rw [h2] at hok
      cases h3 : categoryZSum config stats day.optimism with
      | error e => rw [h3] at hok; exact absurd hok (by simp)
      | ok r3 =>
        rcases List.mem_append.mp hq with hq' | hq'
        · rcases List.mem_append.mp hq' with hq'' | hq''
          · exact categoryZSum_ok_valid config stats day.fears r1 h1 q hq''
          · exact categoryZSum_ok_valid config stats day.frustrations r2 h2 q hq''
        · exact categoryZSum_ok_valid config stats day.optimism r3 h3 q hq'

/-- C10: a lookup of any intensity label other than exactly
`mild`/`moderate`/`strong` raises a `ValueError` whose message names the
unknown label; the three valid labels return their configured z-scores; and
score building fails (raises) on any day containing a quote with an
unrecognised or differently-cased intensity label. -/
theorem C10_intensity_lookup :
    (∀ (s : String) (config : AnalyticsConfig),
      s ≠ "mild" → s ≠ "moderate" → s ≠ "strong" →
      get_intensity_z s config =
        .error ("Unknown intensity: " ++ s ++ ". Expected mild/moderate/strong.") ∧
      ∃ pre post,
        ("Unknown intensity: " ++ s ++ ". Expected mild/moderate/strong.").data =
          pre ++ s.data ++ post) ∧
    (∀ config : AnalyticsConfig,
      get_intensity_z "mild" config = .ok config.intensity_z_scores.mild ∧
      get_intensity_z "moderate" config = .ok config.intensity_z_scores.moderate ∧
      get_intensity_z "strong" config = .ok config.intensity_z_scores.strong) ∧
    (∀ (config : AnalyticsConfig) (stats : EngagementStats) (day : DayData),
      (∃ q ∈ day.allQuotes, q.intensity ≠ "mild" ∧ q.intensity ≠ "moderate" ∧
        q.intensity ≠ "strong") →
      ∃ msg, calculate_daily_score config stats day = .error msg) := by
  refine ⟨?_, ?_, ?_⟩
  · intro s config h1 h2 h3
    refine ⟨by simp [get_intensity_z, h1, h2, h3], "Unknown intensity: ".data,
      ". Expected mild/moderate/strong.".data, ?_⟩
    rw [string_data_append, string_data_append]
  · intro config
    exact ⟨rfl, rfl, rfl⟩
  · intro config stats day hbad
    cases hres : calculate_daily_score config stats day with
    | error msg => exact ⟨msg, rfl⟩
    | ok dp =>
      obtain ⟨q, hq, hb1, hb2, hb3⟩ := hbad
      rcases calculate_daily_score_ok_valid config stats day dp hres q hq with h | h | h
      · exact absurd h hb1
      · exact absurd h hb2
      · exact absurd h hb3

/-- Witness for C10 at concrete inputs: the differently-cased label
`"Mild"` is rejected with a message naming it, and a day carrying such a
quote fails to build. -/
theorem C10_intensity_lookup_witness :
    (get_intensity_z "Mild" defaultConfig =
      .error "Unknown intensity: Mild. Expected mild/moderate/strong." ∧
     get_intensity_z "mild" defaultConfig = .ok defaultConfig.intensity_z_scores.mild) ∧
    (calculate_daily_score defaultConfig ⟨0, 1⟩
      ⟨"2025-01-01", [⟨5, "Mild"⟩], [], []⟩).toOption = Option.none := by
  refine ⟨⟨?_, (C10_intensity_lookup.2.1 defaultConfig).1⟩, ?_⟩
  · have h := (C10_intensity_lookup.1 "Mild" defaultConfig
      (by decide) (by decide) (by decide)).1
    rw [h]; rfl
  · obtain ⟨msg, hmsg⟩ := C10_intensity_lookup.2.2 defaultConfig ⟨0, 1⟩
      ⟨"2025-01-01", [⟨5, "Mild"⟩], [], []⟩
      ⟨⟨5, "Mild"⟩, by simp [DayData.allQuotes], by decide, by decide, by decide⟩
    rw [hmsg]
    rfl

/-- C9: `update_config` rebinds only the `intensity_z_scores` and
`calibration` sub-objects; every other top-level key of the loaded
configuration maps to exactly what it mapped to before. -/
theorem C9_update_config_frame :
    ∀ (config : JConfig) (z_scores : IntensityConfig) (counts : IntensityCounts)
      (data_range : String × String) (today : String) (config' : JConfig),
      update_config config z_scores counts data_range today = some config' →
      ∀ k : String, k ≠ "intensity_z_scores" → k ≠ "calibration" →
        config' k = config k := by
  intro config z_scores counts data_range today config' hup k hk1 hk2
  simp only [update_config, bind, Option.bind] at hup
  cases h1 : getObj (config "intensity_z_scores") with
  | none => rw [h1] at hup; exact absurd hup (by simp)
  | some iz =>
    rw [h1] at hup
    cases h2 : getObj (config "calibration") with
    | none => rw [h2] at hup; exact absurd hup (by simp)
    | some cal =>
      rw [h2] at hup
      simp only [pure, Option.some.injEq] at hup
      rw [← hup]
      simp [setKey, hk1, hk2]

/-- A small loaded configuration file used to witness C9. -/
noncomputable def c9Config : JConfig := fun k =>
  if k = "version" then some (.str "1.0")
  else if k = "intensity_z_scores" then
    some (.obj fun k2 =>
      if k2 = "mild" then some (.num (-1.04))
      else if k2 = "moderate" then some (.num 0.25)
      else if k2 = "strong" then some (.num 1.17)
      else Option.none)
  else if k = "calibration" then some (.obj fun _ => Option.none)
  else if k = "alert_thresholds" then some (.num 2)
  else Option.none

/-- Witness for C9 at a concrete configuration: the update succeeds and the
`alert_thresholds` and `version` keys are untouched. -/
theorem C9_update_config_frame_witness :
    (update_config c9Config ⟨-0.67, 0.39, 1.28⟩ ⟨50, 30, 20⟩
      ("2025-01-01", "2025-02-01") "2025-03-01").isSome = true ∧
    ((update_config c9Config ⟨-0.67, 0.39, 1.28⟩ ⟨50, 30, 20⟩
      ("2025-01-01", "2025-02-01") "2025-03-01").getD (fun _ => Option.none))
        "alert_thresholds" = c9Config "alert_thresholds" ∧
    ((update_config c9Config ⟨-0.67, 0.39, 1.28⟩ ⟨50, 30, 20⟩
      ("2025-01-01", "2025-02-01") "2025-03-01").getD (fun _ => Option.none))
        "version" = c9Config "version" := by
  cases hup : update_config c9Config ⟨-0.67, 0.39, 1.28⟩ ⟨50, 30, 20⟩
      ("2025-01-01", "2025-02-01") "2025-03-01" with
  | none =>
    exfalso
    revert hup
    simp [update_config, c9Config, getObj, bind, Option.bind]
  | some f =>
    refine ⟨by simp [hup], ?_, ?_⟩
    · simp only [Option.getD_some]
      exact C9_update_config_frame c9Config ⟨-0.67, 0.39, 1.28⟩ ⟨50, 30, 20⟩
        ("2025-01-01", "2025-02-01") "2025-03-01" f hup "alert_thresholds"
        (by decide) (by decide)
    · simp only [Option.getD_some]
      exact C9_update_config_frame c9Config ⟨-0.67, 0.39, 1.28⟩ ⟨50, 30, 20⟩
        ("2025-01-01", "2025-02-01") "2025-03-01" f hup "version"
        (by decide) (by decide)

/-- C6: for a non-empty series and positive lookback `L`, the rate of change
is `((current − past)/|past|)·100` with `past` the value `L` points before
the end, with the `past = 0` discontinuity returning `0` when `current = 0`
and exactly `100` otherwise; a lookback longer than the series degrades to
the full series length (equivalently, to `past = values[0]`) instead of
raising or indexing out of range. -/
theorem C6_rate_of_change (current : ℝ) (values : List ℝ) (lookback : ℕ)
    (hne : values ≠ []) (hpos : 1 ≤ lookback) :
    (lookback ≤ values.length →
      rate_of_change current values lookback =
        (let past := values.getD (values.length - lookback) 0
         if past = 0 then (if current = 0 then 0 else 100)
         else ((current - past) / |past|) * 100)) ∧
    (values.length < lookback →
      rate_of_change current values lookback =
        rate_of_change current values values.length) ∧
    (values.length < lookback →
      rate_of_change current values lookback =
        (let past := values.getD 0 0
         if past = 0 then (if current = 0 then 0 else 100)
         else ((current - past) / |past|) * 100)) := by
  have hlen : 1 ≤ values.length := by
    cases values with
    | nil => exact absurd rfl hne
    | cons a t => exact Nat.succ_le_succ (Nat.zero_le _)
  refine ⟨?_, ?_, ?_⟩
  · intro hle
    have h0 : lookback ≠ 0 := by omega
    rw [rate_of_change, dif_neg (Nat.not_lt.mpr hle)]
    simp only [h0, ite_false, if_neg, if_false, eq_false h0]
    norm_num
  · intro hlt
    rw [rate_of_change]
    simp [hlt]
  · intro hlt
    rw [rate_of_change]
    simp only [hlt, dif_pos]
    rw [rate_of_change]
    simp only [Nat.lt_irrefl, dif_neg, (by omega : ¬ values.length = 0), if_false,
      ite_false, Nat.sub_self]
    norm_num

/-- Witness for C6 at concrete inputs: a lookback of 3 into the 1-element
series `[2]` degrades to the full length (past = 2) and yields 150%, and a
zero `past` with nonzero `current` yields exactly 100%. -/
theorem C6_rate_of_change_witness :
    rate_of_change 5 [2] 3 = 150 ∧ rate_of_change 7 [0] 1 = 100 := by
  constructor
  · have h := (C6_rate_of_change 5 [2] 3 (by simp) (by omega)).2.2 (by simp)
    rw [h]
    norm_num
  · have h := (C6_rate_of_change 7 [0] 1 (by simp) (by omega)).1 (by simp)
    rw [h]
    norm_num

/-- The fields of a `DailySentimentScore` built by `_calculate_daily_score`
satisfy the derived-score identities by construction. -/
theorem calculate_daily_score_identities (config : AnalyticsConfig)
    (stats : EngagementStats) (day : DayData) (dp : DailySentimentScore)
    (hok : calculate_daily_score config stats day = .ok dp) :
    dp.negativity_score = dp.fears_zscore_sum + dp.frustrations_zscore_sum ∧
    dp.positivity_score = dp.optimism_zscore_sum ∧
    dp.composite_score = dp.positivity_score - dp.negativity_score := by
  simp only [calculate_daily_score, bind, Except.bind] at hok
  cases h1 : categoryZSum config stats day.fears with
  | error e => rw [h1] at hok; exact absurd hok (by simp)
  | ok r1 =>
    rw [h1] at hok
    cases h2 : categoryZSum config stats day.frustrations with
    | error e => rw [h2] at hok; exact absurd hok (by simp)
    | ok r2 =>
      rw [h2] at hok
      cases h3 : categoryZSum config stats day.optimism with
      | error e => rw [h3] at hok; exact absurd hok (by simp)
      | ok r3 =>
        rw [h3] at hok
        simp only [pure, Except.pure, Except.ok.injEq] at hok
        rw [← hok]
        exact ⟨rfl, rfl, rfl⟩

/-- Every data point produced by `mapDailyScores` was built by
`_calculate_daily_score` from some input day. -/
theorem mapDailyScores_mem (config : AnalyticsConfig) (stats : EngagementStats) :
    ∀ (daily : List DayData) (dps : List DailySentimentScore),
      mapDailyScores config stats daily = .ok dps →
      ∀ dp ∈ dps, ∃ day, calculate_daily_score config stats day = .ok dp := by
  intro daily
  induction daily with
  | nil =>
    intro dps hok dp hdp
    simp only [mapDailyScores, pure, Except.pure, Except.ok.injEq] at hok
    rw [← hok] at hdp
    exact absurd hdp (List.not_mem_nil dp)
  | cons day rest ih =>
    intro dps hok dp hdp
    simp only [mapDailyScores, bind, Except.bind] at hok
    cases h1 : calculate_daily_score config stats day with
    | error e => rw [h1] at hok; exact absurd hok (by simp)
    | ok dp1 =>
      rw [h1] at hok
      cases h2 : mapDailyScores config stats rest with
      | error e => rw [h2] at hok; exact absurd hok (by simp)
      | ok dps1 =>
        rw [h2] at hok
        simp only [pure, Except.pure, Except.ok.injEq] at hok
        rw [← hok] at hdp
        rcases List.mem_cons.mp hdp with hdp' | hdp'
        · exact ⟨day, hdp' ▸ h1⟩
        · exact ih dps1 h2 dp hdp'

/-- Embeds `setEmas` only touches the three smoothed fields: every output point
agrees with some input point on all score fields. -/
theorem setEmas_mem :
    ∀ (dps : List DailySentimentScore) (cs ns ps : List (Option ℝ))
      (dp : DailySentimentScore), dp ∈ setEmas dps cs ns ps →
      ∃ dp0 ∈ dps,
        dp.negativity_score = dp0.negativity_score ∧
        dp.positivity_score = dp0.positivity_score ∧
        dp.composite_score = dp0.composite_score ∧
        dp.fears_zscore_sum = dp0.fears_zscore_sum ∧
        dp.frustrations_zscore_sum = dp0.frustrations_zscore_sum ∧
        dp.optimism_zscore_sum = dp0.optimism_zscore_sum := by
  intro dps
  induction dps with
  | nil =>
    intro cs ns ps dp hdp
    cases cs <;> cases ns <;> cases ps <;> simp [setEmas] at hdp
  | cons dp0 rest ih =>
    intro cs ns ps dp hdp
    match cs, ns, ps with
    | c :: cs', n :: ns', p :: ps' =>
      simp only [setEmas] at hdp
      rcases List.mem_cons.mp hdp with hdp' | hdp'
      · exact ⟨dp0, List.mem_cons_self dp0 rest,
          by rw [hdp']; exact ⟨rfl, rfl, rfl, rfl, rfl, rfl⟩⟩
      · obtain ⟨dp1, hmem, hfields⟩ := ih cs' ns' ps' dp hdp'
        exact ⟨dp1, List.mem_cons_of_mem dp0 hmem, hfields⟩
    | [], _, _ =>
      simp only [setEmas] at hdp
      exact ⟨dp, hdp, rfl, rfl, rfl, rfl, rfl, rfl⟩
    | c :: cs', [], _ =>
      simp only [setEmas] at hdp
      exact ⟨dp, hdp, rfl, rfl, rfl, rfl, rfl, rfl⟩
    | c :: cs', n :: ns', [] =>
      simp only [setEmas] at hdp
      exact ⟨dp, hdp, rfl, rfl, rfl, rfl, rfl, rfl⟩

/-- A successful `timeSeriesBuild` produced its data points by applying the
EMA pass to the mapped daily scores. -/
theorem timeSeriesBuild_data_points (config : AnalyticsConfig)
    (daily : List DayData) (stats : EngagementStats) (ts : SentimentTimeSeries)
    (hok : timeSeriesBuild config daily stats = .ok ts) :
    ∃ raw, mapDailyScores config stats daily = .ok raw ∧
      ts.data_points = apply_ema config raw := by
  simp only [timeSeriesBuild, bind, Except.bind] at hok
  cases h1 : mapDailyScores config stats daily with
  | error e => rw [h1] at hok; exact absurd hok (by simp)
  | ok raw =>
    rw [h1] at hok
    dsimp only at hok
    by_cases h2 : (apply_ema config raw).isEmpty
    · rw [if_pos h2] at hok
      exact absurd hok (by simp)
    · rw [if_neg h2] at hok
      simp only [pure, Except.pure, Except.ok.injEq] at hok
      exact ⟨raw, rfl, by rw [← hok]⟩

/-- C1: every per-period score in a built time series satisfies
`negativity = fears_zscore_sum + frustrations_zscore_sum`,
`positivity = optimism_zscore_sum` and
`composite = positivity − negativity`, exactly. -/
theorem C1_score_identities (config : AnalyticsConfig) (stats : EngagementStats)
    (daily : List DayData) (ts : SentimentTimeSeries)
    (hmin : config.pipeline.min_days_required ≤ (daily.length : ℤ))
    (hbuild : timeSeriesBuild config daily stats = .ok ts) :
    ∀ dp ∈ ts.data_points,
      dp.negativity_score = dp.fears_zscore_sum + dp.frustrations_zscore_sum ∧
      dp.positivity_score = dp.optimism_zscore_sum ∧
      dp.composite_score = dp.positivity_score - dp.negativity_score := by
  intro dp hdp
  obtain ⟨raw, hraw, hdps⟩ := timeSeriesBuild_data_points config daily stats ts hbuild
  rw [hdps] at hdp
  obtain ⟨dp0, hmem0, e1, e2, e3, e4, e5, e6⟩ := setEmas_mem raw _ _ _ dp hdp
  obtain ⟨day, hday⟩ := mapDailyScores_mem config stats daily raw hraw dp0 hmem0
  obtain ⟨i1, i2, i3⟩ := calculate_daily_score_identities config stats day dp0 hday
  refine ⟨?_, ?_, ?_⟩
  · rw [e1, e4, e5, i1]
  · rw [e2, e6, i2]
  · rw [e3, e1, e2, i3]

/-- A concrete 3-day input (the default `min_days_required`) used to
witness C1. -/
def c1Days : List DayData :=
  [⟨"2025-01-01", [], [], []⟩, ⟨"2025-01-02", [], [], []⟩, ⟨"2025-01-03", [], [], []⟩]

/-- Witness for C1: the build succeeds on a concrete 3-day input and its
first data point satisfies the derived-score identities. -/
theorem C1_score_identities_witness :
    (timeSeriesBuild defaultConfig c1Days ⟨0, 1⟩).toOption.isSome = true ∧
    (((timeSeriesBuild defaultConfig c1Days ⟨0, 1⟩).toOption.getD
        default).data_points.headD default).negativity_score =
      (((timeSeriesBuild defaultConfig c1Days ⟨0, 1⟩).toOption.getD
        default).data_points.headD default).fears_zscore_sum +
      (((timeSeriesBuild defaultConfig c1Days ⟨0, 1⟩).toOption.getD
        default).data_points.headD default).frustrations_zscore_sum := by
  cases hbuild : timeSeriesBuild defaultConfig c1Days ⟨0, 1⟩ with
  | error e =>
    exfalso
    revert hbuild
    simp [timeSeriesBuild, mapDailyScores, calculate_daily_score, categoryZSum,
      bind, Except.bind, pure, Except.pure, apply_ema, setEmas, c1Days,
      dayTotalEngagement, DayData.allQuotes,
      (show List.range 3 = [0, 1, 2] from rfl)]
  | ok ts =>
    obtain ⟨raw, hraw, hdps⟩ :=
      timeSeriesBuild_data_points defaultConfig c1Days ⟨0, 1⟩ ts hbuild
    have hne : ts.data_points ≠ [] := by
      simp only [mapDailyScores, calculate_daily_score, categoryZSum, bind,
        Except.bind, pure, Except.pure, c1Days, dayTotalEngagement,
        DayData.allQuotes, Except.ok.injEq] at hraw
      rw [hdps, ← hraw]
      simp [apply_ema, setEmas, (show List.range 3 = [0, 1, 2] from rfl)]
    have hmem : ts.data_points.headD default ∈ ts.data_points := by
      cases h : ts.data_points with
      | nil => exact absurd h hne
      | cons a l => simp [h]
    have hid := C1_score_identities defaultConfig ⟨0, 1⟩ c1Days ts
      (by norm_num [defaultConfig, c1Days]) hbuild (ts.data_points.headD default) hmem
    exact ⟨by simp [Except.toOption], by simp only [Except.toOption, Option.getD_some]; exact hid.1⟩

theorem emaVal_of_lt (min_periods : ℤ) (alpha : ℝ) (raw : List ℝ) (i : ℕ)
    (h : (i : ℤ) < min_periods - 1) :
    emaVal min_periods alpha raw i = Option.none := by
  cases i with
  | zero => rw [emaVal, if_pos (by exact_mod_cast h)]
  | succ n => rw [emaVal, if_pos (by push_cast at h ⊢; omega)]

theorem emaVal_at_mean (min_periods : ℤ) (alpha : ℝ) (raw : List ℝ) (i : ℕ)
    (h : (i : ℤ) = min_periods - 1) :
    emaVal min_periods alpha raw i = some (listMean (raw.take (i + 1))) := by
  cases i with
  | zero =>
    rw [emaVal, if_neg (by push_cast at h ⊢; omega), if_pos (by exact_mod_cast h)]
  | succ n =>
    rw [emaVal, if_neg (by push_cast at h ⊢; omega), if_pos (by push_cast at h ⊢; omega)]

theorem emaVal_isSome (min_periods : ℤ) (alpha : ℝ) (raw : List ℝ)
    (h1 : 1 ≤ min_periods) :
    ∀ i : ℕ, min_periods - 1 ≤ (i : ℤ) → (emaVal min_periods alpha raw i).isSome = true := by
  intro i
  induction i with
  | zero =>
    intro h
    rw [emaVal_at_mean min_periods alpha raw 0 (by push_cast at h ⊢; omega)]
    rfl
  | succ n ih =>
    intro h
    by_cases he : ((n : ℕ) + 1 : ℤ) = min_periods - 1
    · rw [emaVal_at_mean min_periods alpha raw (n + 1) (by push_cast at he ⊢; omega)]
      rfl
    · have hlt : min_periods - 1 ≤ (n : ℤ) := by push_cast at h he ⊢; omega
      have hsome := ih hlt
      rw [emaVal, if_neg (by push_cast; omega), if_neg (by push_cast at he ⊢; omega)]
      cases hprev : emaVal min_periods alpha raw n with
      | none => rw [hprev] at hsome; exact absurd hsome (by simp)
      | some prev => simp

theorem emaVal_succ_rec (min_periods : ℤ) (alpha : ℝ) (raw : List ℝ) (n : ℕ)
    (h : min_periods - 1 < (n : ℤ) + 1) :
    emaVal min_periods alpha raw (n + 1) =
      match emaVal min_periods alpha raw n with
      | some prev => some (alpha * raw.getD (n + 1) 0 + (1 - alpha) * prev)
      | Option.none => Option.none := by
  rw [emaVal, if_neg (by push_cast; omega), if_neg (by push_cast; omega)]

/-- The per-channel correctness property of the EMA pass, phrased as the
spec states it: null before `min_periods − 1`, the arithmetic mean of the
raw values so far at `min_periods − 1`, and the `α`-recursion afterwards. -/
def emaChannelSpec (min_periods : ℤ) (alpha : ℝ) (raw : List ℝ)
    (ema : List (Option ℝ)) : Prop :=
  ∀ i < raw.length,
    ((i : ℤ) < min_periods - 1 → ema.getD i (some 0) = Option.none) ∧
    ((i : ℤ) = min_periods - 1 → ema.getD i Option.none = some (listMean (raw.take (i + 1)))) ∧
    (min_periods - 1 < (i : ℤ) → ∃ prev, ema.getD (i - 1) Option.none = some prev ∧
      ema.getD i Option.none = some (alpha * raw.getD i 0 + (1 - alpha) * prev))

theorem getD_range_map {α : Type} (f : ℕ → α) (n i : ℕ) (d : α) (h : i < n) :
    ((List.range n).map f).getD i d = f i := by
  rw [List.getD_eq_getElem?_getD, List.getElem?_map, List.getElem?_range h]
  rfl

/-- The list of values the `_apply_ema` loop computes for one channel
satisfies the channel spec whenever `min_periods ≥ 1`. -/
theorem emaVal_channelSpec (min_periods : ℤ) (alpha : ℝ) (raw : List ℝ)
    (h1 : 1 ≤ min_periods) :
    emaChannelSpec min_periods alpha raw
      ((List.range raw.length).map (emaVal min_periods alpha raw)) := by
  intro i hi
  refine ⟨?_, ?_, ?_⟩
  · intro hlt
    rw [getD_range_map _ _ _ _ hi]
    exact emaVal_of_lt min_periods alpha raw i hlt
  · intro heq
    rw [getD_range_map _ _ _ _ hi]
    exact emaVal_at_mean min_periods alpha raw i heq
  · intro hgt
    have hi1 : 1 ≤ i := by omega
    obtain ⟨n, rfl⟩ : ∃ n, i = n + 1 := ⟨i - 1, by omega⟩
    have hprev_le : min_periods - 1 ≤ (n : ℤ) := by push_cast at hgt ⊢; omega
    have hsome := emaVal_isSome min_periods alpha raw h1 n hprev_le
    cases hprev : emaVal min_periods alpha raw n with
    | none => rw [hprev] at hsome; exact absurd hsome (by simp)
    | some prev =>
      refine ⟨prev, ?_, ?_⟩
      · rw [(by omega : n + 1 - 1 = n), getD_range_map _ _ _ _ (by omega), hprev]
      · rw [getD_range_map _ _ _ _ hi, emaVal_succ_rec min_periods alpha raw n
          (by push_cast at hgt ⊢; omega), hprev]

theorem setEmas_length :
    ∀ (dps : List DailySentimentScore) (cs ns ps : List (Option ℝ)),
      (setEmas dps cs ns ps).length = dps.length := by
  intro dps
  induction dps with
  | nil => intro cs ns ps; cases cs <;> cases ns <;> cases ps <;> rfl
  | cons dp rest ih =>
    intro cs ns ps
    match cs, ns, ps with
    | c :: cs', n :: ns', p :: ps' => simp [setEmas, ih]
    | [], _, _ => rfl
    | c :: cs', [], _ => rfl
    | c :: cs', n :: ns', [] => rfl

/-- Embeds `setEmas` maps any ema-field-insensitive projection like the raw map. -/
theorem setEmas_map_of_ema_insensitive {α : Type} (f : DailySentimentScore → α)
    (hf : ∀ (dp : DailySentimentScore) (c n p : Option ℝ),
      f { dp with ema_score := c, ema_negativity := n, ema_positivity := p } = f dp) :
    ∀ (dps : List DailySentimentScore) (cs ns ps : List (Option ℝ)),
      (setEmas dps cs ns ps).map f = dps.map f := by
  intro dps
  induction dps with
  | nil => intro cs ns ps; cases cs <;> cases ns <;> cases ps <;> rfl
  | cons dp rest ih =>
    intro cs ns ps
    match cs, ns, ps with
    | c :: cs', n :: ns', p :: ps' => simp [setEmas, ih, hf]
    | [], _, _ => rfl
    | c :: cs', [], _ => rfl
    | c :: cs', n :: ns', [] => rfl

/-- Embeds `setEmas` installs exactly the given channels as the smoothed fields
(when the channel lists are as long as the data). -/
theorem setEmas_map_ema :
    ∀ (dps : List DailySentimentScore) (cs ns ps : List (Option ℝ)),
      cs.length = dps.length → ns.length = dps.length → ps.length = dps.length →
      (setEmas dps cs ns ps).map (·.ema_score) = cs ∧
      (setEmas dps cs ns ps).map (·.ema_negativity) = ns ∧
      (setEmas dps cs ns ps).map (·.ema_positivity) = ps := by
  intro dps
  induction dps with
  | nil =>
    intro cs ns ps hc hn hp
    rw [List.length_nil, List.length_eq_zero] at hc hn hp
    subst hc; subst hn; subst hp
    exact ⟨rfl, rfl, rfl⟩
  | cons dp rest ih =>
    intro cs ns ps hc hn hp
    match cs, ns, ps with
    | c :: cs', n :: ns', p :: ps' =>
      simp only [List.length_cons, Nat.succ.injEq] at hc hn hp
      obtain ⟨e1, e2, e3⟩ := ih cs' ns' ps' hc hn hp
      simp [setEmas, e1, e2, e3]

/-- C3: in every built time series, each of the three smoothed channels
(composite, negativity, positivity) satisfies: null strictly below index
`min_periods − 1`; the arithmetic mean of the channel's raw values at
indices `0 … min_periods − 1` at index `min_periods − 1`; and
`α·raw[i] + (1−α)·ema[i−1]` with `α = 2/(span+1)` at every later index. -/
theorem C3_ema_channels (config : AnalyticsConfig) (stats : EngagementStats)
    (daily : List DayData) (ts : SentimentTimeSeries)
    (hbuild : timeSeriesBuild config daily stats = .ok ts)
    (hminp : 1 ≤ config.ema.min_periods) :
    emaChannelSpec config.ema.min_periods (2 / ((config.ema.span : ℝ) + 1))
      (ts.data_points.map (·.composite_score)) (ts.data_points.map (·.ema_score)) ∧
    emaChannelSpec config.ema.min_periods (2 / ((config.ema.span : ℝ) + 1))
      (ts.data_points.map (·.negativity_score)) (ts.data_points.map (·.ema_negativity)) ∧
    emaChannelSpec config.ema.min_periods (2 / ((config.ema.span : ℝ) + 1))
      (ts.data_points.map (·.positivity_score)) (ts.data_points.map (·.ema_positivity)) := by
  obtain ⟨raw, _, hdps⟩ := timeSeriesBuild_data_points config daily stats ts hbuild
  have hlen : ∀ f : ℕ → Option ℝ, ((List.range raw.length).map f).length = raw.length := by
    intro f; simp
  have hchan := setEmas_map_ema raw
    ((List.range raw.length).map (emaVal config.ema.min_periods
      (2 / ((config.ema.span : ℝ) + 1)) (raw.map (·.composite_score))))
    ((List.range raw.length).map (emaVal config.ema.min_periods
      (2 / ((config.ema.span : ℝ) + 1)) (raw.map (·.negativity_score))))
    ((List.range raw.length).map (emaVal config.ema.min_periods
      (2 / ((config.ema.span : ℝ) + 1)) (raw.map (·.positivity_score))))
    (by simp) (by simp) (by simp)
  have hcomp : ts.data_points.map (·.composite_score) = raw.map (·.composite_score) := by
    rw [hdps]
    exact setEmas_map_of_ema_insensitive (·.composite_score) (fun _ _ _ _ => rfl) raw _ _ _
  have hneg : ts.data_points.map (·.negativity_score) = raw.map (·.negativity_score) := by
    rw [hdps]
    exact setEmas_map_of_ema_insensitive (·.negativity_score) (fun _ _ _ _ => rfl) raw _ _ _
  have hpos : ts.data_points.map (·.positivity_score) = raw.map (·.positivity_score) := by
    rw [hdps]
    exact setEmas_map_of_ema_insensitive (·.positivity_score) (fun _ _ _ _ => rfl) raw _ _ _
  have hraws : raw.length = (raw.map (·.composite_score)).length := by simp
  refine ⟨?_, ?_, ?_⟩
  · rw [hcomp, hdps, (show apply_ema config raw = setEmas raw _ _ _ from rfl), hchan.1]
    rw [hraws]
    exact emaVal_channelSpec _ _ _ hminp
  · rw [hneg, hdps, (show apply_ema config raw = setEmas raw _ _ _ from rfl), hchan.2.1]
    rw [show raw.length = (raw.map (·.negativity_score)).length by simp]
    exact emaVal_channelSpec _ _ _ hminp
  · rw [hpos, hdps, (show apply_ema config raw = setEmas raw _ _ _ from rfl), hchan.2.2]
    rw [show raw.length = (raw.map (·.positivity_score)).length by simp]
    exact emaVal_channelSpec _ _ _ hminp

theorem mapDailyScores_length (config : AnalyticsConfig) (stats : EngagementStats) :
    ∀ (daily : List DayData) (dps : List DailySentimentScore),
      mapDailyScores config stats daily = .ok dps → dps.length = daily.length := by
  intro daily
  induction daily with
  | nil =>
    intro dps hok
    simp only [mapDailyScores, pure, Except.pure, Except.ok.injEq] at hok
    rw [← hok]
    rfl
  | cons day rest ih =>
    intro dps hok
    simp only [mapDailyScores, bind, Except.bind] at hok
    cases h1 : calculate_daily_score config stats day with
    | error e => rw [h1] at hok; exact absurd hok (by simp)
    | ok dp1 =>
      rw [h1] at hok
      cases h2 : mapDailyScores config stats rest with
      | error e => rw [h2] at hok; exact absurd hok (by simp)
      | ok dps1 =>
        rw [h2] at hok
        simp only [pure, Except.pure, Except.ok.injEq] at hok
        rw [← hok]
        simp [ih dps1 h2]

theorem apply_ema_length (config : AnalyticsConfig) (dps : List DailySentimentScore) :
    (apply_ema config dps).length = dps.length :=
  setEmas_length dps _ _ _

/-- The build on the concrete 3-day input succeeds. -/
theorem c1Days_build_ok : ∃ ts, timeSeriesBuild defaultConfig c1Days ⟨0, 1⟩ = .ok ts := by
  cases hbuild : timeSeriesBuild defaultConfig c1Days ⟨0, 1⟩ with
  | error e =>
    exfalso
    revert hbuild
    simp [timeSeriesBuild, mapDailyScores, calculate_daily_score, categoryZSum,
      bind, Except.bind, pure, Except.pure, apply_ema, setEmas, c1Days,
      dayTotalEngagement, DayData.allQuotes,
      (show List.range 3 = [0, 1, 2] from rfl)]
  | ok ts => exact ⟨ts, rfl⟩

/-- Witness for C3 at the concrete 3-day build (default `min_periods = 3`):
the smoothed composite is null at index 0 and equals the mean of the first
three composite values at index 2. -/
theorem C3_ema_channels_witness :
    ((((timeSeriesBuild defaultConfig c1Days ⟨0, 1⟩).toOption.getD
        default).data_points.map (·.ema_score)).getD 0 (some 0) = Option.none) ∧
    ((((timeSeriesBuild defaultConfig c1Days ⟨0, 1⟩).toOption.getD
        default).data_points.map (·.ema_score)).getD 2 Option.none =
      some (listMean ((((timeSeriesBuild defaultConfig c1Days ⟨0, 1⟩).toOption.getD
        default).data_points.map (·.composite_score)).take 3))) := by
  obtain ⟨ts, hts⟩ := c1Days_build_ok
  obtain ⟨raw, hraw, hdps⟩ := timeSeriesBuild_data_points defaultConfig c1Days ⟨0, 1⟩ ts hts
  have hlen : ts.data_points.length = 3 := by
    rw [hdps, apply_ema_length]
    rw [mapDailyScores_length defaultConfig ⟨0, 1⟩ c1Days raw hraw]
    rfl
  have hspec := (C3_ema_channels defaultConfig ⟨0, 1⟩ c1Days ts hts
    (by norm_num [defaultConfig])).1
  have hmlen : (ts.data_points.map (·.composite_score)).length = 3 := by
    simp [hlen]
  have h0 := (hspec 0 (by omega)).1 (by norm_num [defaultConfig])
  have h2 := (hspec 2 (by omega)).2.1 (by norm_num [defaultConfig])
  rw [hts]
  simp only [Except.toOption, Option.getD_some]
  exact ⟨h0, h2⟩

theorem insufficientDataMsg_head (req : ℤ) (found : ℕ) :
    (insufficientDataMsg req found).data.head? = some 'N' := by
  rw [insufficientDataMsg, string_data_append, string_data_append, string_data_append,
    (show ("Need at least ").data = 'N' :: ("eed at least ").data from rfl)]
  rfl

theorem get_intensity_z_error_head (s : String) (config : AnalyticsConfig) (m : String)
    (h : get_intensity_z s config = .error m) : m.data.head? = some 'U' := by
  by_cases h1 : s = "mild"
  · rw [get_intensity_z, if_pos h1] at h; exact absurd h (by simp)
  · by_cases h2 : s = "moderate"
    · rw [get_intensity_z, if_neg h1, if_pos h2] at h; exact absurd h (by simp)
    · by_cases h3 : s = "strong"
      · rw [get_intensity_z, if_neg h1, if_neg h2, if_pos h3] at h
        exact absurd h (by simp)
      · rw [get_intensity_z, if_neg h1, if_neg h2, if_neg h3] at h
        simp only [Except.error.injEq] at h
        rw [← h, string_data_append, string_data_append,
          (show ("Unknown intensity: ").data = 'U' :: ("nknown intensity: ").data from rfl)]
        rfl

theorem categoryZSum_error_head (config : AnalyticsConfig) (stats : EngagementStats) :
    ∀ (quotes : List Quote) (m : String),
      categoryZSum config stats quotes = .error m → m.data.head? = some 'U' := by
  intro quotes
  induction quotes with
  | nil => intro m h; exact absurd h (by simp [categoryZSum, pure, Except.pure])
  | cons quote rest ih =>
    intro m h
    simp only [categoryZSum, bind, Except.bind] at h
    cases h1 : get_intensity_z quote.intensity config with
    | error e =>
      rw [h1] at h
      simp only [Except.error.injEq] at h
      exact h ▸ get_intensity_z_error_head quote.intensity config e h1
    | ok iz =>
      rw [h1] at h
      cases h2 : categoryZSum config stats rest with
      | error e =>
        rw [h2] at h
        simp only [Except.error.injEq] at h
        exact h ▸ ih e h2
      | ok r => rw [h2] at h; exact absurd h (by simp [pure, Except.pure])

theorem calculate_daily_score_error_head (config : AnalyticsConfig)
    (stats : EngagementStats) (day : DayData) (m : String)
    (h : calculate_daily_score config stats day = .error m) :
    m.data.head? = some 'U' := by
  simp only [calculate_daily_score, bind, Except.bind] at h
  cases h1 : categoryZSum config stats day.fears with
  | error e =>
    rw [h1] at h
    simp only [Except.error.injEq] at h
    exact h ▸ categoryZSum_error_head config stats day.fears e h1
  | ok r1 =>
    rw [h1] at h
    cases h2 : categoryZSum config stats day.frustrations with
    | error e =>
      rw [h2] at h
      simp only [Except.error.injEq] at h
      exact h ▸ categoryZSum_error_head config stats day.frustrations e h2
    | ok r2 =>
      rw [h2] at h
      cases h3 : categoryZSum config stats day.optimism with
      | error e =>
        rw [h3] at h
        simp only [Except.error.injEq] at h
        exact h ▸ categoryZSum_error_head config stats day.optimism e h3
      | ok r3 => rw [h3] at h; exact absurd h (by simp [pure, Except.pure])

theorem mapDailyScores_error_head (config : AnalyticsConfig) (stats : EngagementStats) :
    ∀ (daily : List DayData) (m : String),
      mapDailyScores config stats daily = .error m → m.data.head? = some 'U' := by
  intro daily
  induction daily with
  | nil => intro m h; exact absurd h (by simp [mapDailyScores, pure, Except.pure])
  | cons day rest ih =>
    intro m h
    simp only [mapDailyScores, bind, Except.bind] at h
    cases h1 : calculate_daily_score config stats day with
    | error e =>
      rw [h1] at h
      simp only [Except.error.injEq] at h
      exact h ▸ calculate_daily_score_error_head config stats day e h1
    | ok dp =>
      rw [h1] at h
      cases h2 : mapDailyScores config stats rest with
      | error e =>
        rw [h2] at h
        simp only [Except.error.injEq] at h
        exact h ▸ ih e h2
      | ok dps => rw [h2] at h; exact absurd h (by simp [pure, Except.pure])

theorem timeSeriesBuild_error_head (config : AnalyticsConfig) (daily : List DayData)
    (stats : EngagementStats) (m : String)
    (h : timeSeriesBuild config daily stats = .error m) :
    m.data.head? = some 'U' ∨ m = "mean requires at least one data point" := by
  simp only [timeSeriesBuild, bind, Except.bind] at h
  cases h1 : mapDailyScores config stats daily with
  | error e =>
    rw [h1] at h
    simp only [Except.error.injEq] at h
    exact Or.inl (h ▸ mapDailyScores_error_head config stats daily e h1)
  | ok raw =>
    rw [h1] at h
    dsimp only at h
    by_cases h2 : (apply_ema config raw).isEmpty
    · rw [if_pos h2] at h
      simp only [Except.error.injEq] at h
      exact Or.inr h.symm
    · rw [if_neg h2] at h
      exact absurd h (by simp [pure, Except.pure])

/-- C2: with fewer periods than `min_days_required`, `generate_report`
raises exactly the typed insufficient-data `ValueError` whose message
contains both the required and the found count, and no report is returned;
with at least that many periods, whatever happens downstream, no
insufficient-data error (for any pair of counts) is ever raised. -/
theorem C2_insufficient_data (ops : FloatOps) (config : AnalyticsConfig)
    (daily : List DayData) :
    ((daily.length : ℤ) < config.pipeline.min_days_required →
      generate_report ops config daily =
        .error (insufficientDataMsg config.pipeline.min_days_required daily.length) ∧
      (∃ pre mid post,
        (insufficientDataMsg config.pipeline.min_days_required daily.length).data =
          pre ++ (toString config.pipeline.min_days_required).data ++ mid ++
          (toString daily.length).data ++ post)) ∧
    (config.pipeline.min_days_required ≤ (daily.length : ℤ) →
      ∀ msg, generate_report ops config daily = .error msg →
        ∀ (req : ℤ) (found : ℕ), msg ≠ insufficientDataMsg req found) := by
  constructor
  · intro hlt
    refine ⟨by rw [generate_report, if_pos hlt], "Need at least ".data,
      " days of data, found ".data, [], ?_⟩
    rw [insufficientDataMsg, string_data_append, string_data_append, string_data_append]
    simp [List.append_assoc]
  · intro hge msg hmsg req found heq
    rw [generate_report, if_neg (by omega)] at hmsg
    simp only [bind, Except.bind] at hmsg
    cases h1 : timeSeriesBuild config daily (compute_engagement_stats daily) with
    | error e =>
      rw [h1] at hmsg
      simp only [Except.error.injEq] at hmsg
      have hd := timeSeriesBuild_error_head config daily
        (compute_engagement_stats daily) e h1
      rw [hmsg, heq] at hd
      rw [insufficientDataMsg_head req found] at hd
      rcases hd with hd | hd
      · exact absurd (Option.some.injEq _ _ ▸ hd) (by decide)
      · have : (insufficientDataMsg req found).data.head? =
          ("mean requires at least one data point").data.head? := by rw [hd]
        rw [insufficientDataMsg_head req found] at this
        exact absurd (Option.some.injEq _ _ ▸ this) (by decide)
    | ok ts => rw [h1] at hmsg; exact absurd hmsg (by simp [pure, Except.pure])

/-- Trivial float primitives used to instantiate witnesses. -/
noncomputable def zeroOps : FloatOps := ⟨fun _ => 0, fun _ => ""⟩

/-- Witness for C2: on an empty input with the default `min_days_required`
of 3, the report generation raises the typed insufficient-data error with
both counts in its message. -/
theorem C2_insufficient_data_witness :
    generate_report zeroOps defaultConfig [] = .error (insufficientDataMsg 3 0) ∧
    insufficientDataMsg 3 0 = "Need at least 3 days of data, found 0" := by
  have h := (C2_insufficient_data zeroOps defaultConfig []).1
    (by norm_num [defaultConfig])
  refine ⟨?_, rfl⟩
  rw [h.1]
  rfl

theorem list_sum_eq_range_sum (xs : List ℝ) :
    xs.sum = ∑ i ∈ Finset.range xs.length, xs.getD i 0 := by
  induction xs with
  | nil => simp
  | cons a t ih =>
    rw [List.sum_cons, List.length_cons, Finset.sum_range_succ']
    simp only [List.getD_cons_succ, List.getD_cons_zero]
    rw [← ih]
    ring

theorem map_sum_eq_range_sum (xs : List ℝ) (f : ℝ → ℝ) :
    (xs.map f).sum = ∑ i ∈ Finset.range xs.length, f (xs.getD i 0) := by
  induction xs with
  | nil => simp
  | cons a t ih =>
    rw [List.map_cons, List.sum_cons, List.length_cons, Finset.sum_range_succ']
    simp only [List.getD_cons_succ, List.getD_cons_zero]
    rw [← ih]
    ring

/-- The sum of squared deviations of `0, …, n−1` from any value is positive
once `n ≥ 2`. -/
theorem sq_dev_sum_pos (n : ℕ) (h2 : 2 ≤ n) (c : ℝ) :
    0 < ∑ i ∈ Finset.range n, ((i : ℝ) - c) ^ 2 := by
  rcases eq_or_ne c 0 with rfl | hc
  · refine Finset.sum_pos' (fun i _ => sq_nonneg _)
      ⟨1, Finset.mem_range.mpr (by omega), ?_⟩
    norm_num
  · refine Finset.sum_pos' (fun i _ => sq_nonneg _)
      ⟨0, Finset.mem_range.mpr (by omega), ?_⟩
    apply sq_pos_of_ne_zero
    simpa using fun h => hc (by linarith)

theorem regDen_pos (values : List ℝ) (h2 : 2 ≤ values.length) :
    0 < regDen values :=
  sq_dev_sum_pos values.length h2 (regXMean values)

/-- Embeds `listMean` through the index sum. -/
theorem listMean_eq_range (values : List ℝ) :
    listMean values =
      (∑ i ∈ Finset.range values.length, values.getD i 0) / values.length := by
  rw [listMean, list_sum_eq_range_sum]

/-- The regression numerator of a strictly increasing series is positive:
`2n·numerator` equals the positive double sum `Σᵢⱼ (i−j)(yᵢ−yⱼ)`. -/
theorem regNum_pos_of_strictMono (values : List ℝ) (h2 : 2 ≤ values.length)
    (hmono : ∀ i j, i < j → j < values.length →
      values.getD i 0 < values.getD j 0) :
    0 < regNum values := by
  have hn0 : (values.length : ℝ) ≠ 0 := by
    have : (0 : ℝ) < values.length := by exact_mod_cast (by omega : 0 < values.length)
    exact ne_of_gt this
  set n := values.length with hn
  set y : ℕ → ℝ := fun i => values.getD i 0 with hy
  set B := ∑ i ∈ Finset.range n, (i : ℝ) with hB
  set C := ∑ i ∈ Finset.range n, y i with hC
  set A := ∑ i ∈ Finset.range n, (i : ℝ) * y i with hA
  have hym : listMean values = C / n := listMean_eq_range values
  have hexp : regNum values = A - B * C / n := by
    rw [regNum, regXMean, hym, ← hn, ← hB]
    have hterm : ∀ i ∈ Finset.range n,
        ((i : ℝ) - B / n) * (y i - C / n) =
        (i : ℝ) * y i - (C / n) * (i : ℝ) - (B / n) * y i + (B / n) * (C / n) :=
      fun i _ => by ring
    rw [Finset.sum_congr rfl hterm, Finset.sum_add_distrib, Finset.sum_sub_distrib,
      Finset.sum_sub_distrib, ← Finset.mul_sum, ← Finset.mul_sum, Finset.sum_const,
      Finset.card_range, nsmul_eq_mul, ← hB, ← hC, ← hA]
    field_simp
    ring
  have hS : ∑ i ∈ Finset.range n, ∑ j ∈ Finset.range n,
      ((i : ℝ) - (j : ℝ)) * (y i - y j) = 2 * n * A - 2 * B * C := by
    have hin : ∀ i ∈ Finset.range n,
        ∑ j ∈ Finset.range n, ((i : ℝ) - (j : ℝ)) * (y i - y j) =
        (n : ℝ) * ((i : ℝ) * y i) - (i : ℝ) * C - B * y i + A := by
      intro i _
      have hterm : ∀ j ∈ Finset.range n,
          ((i : ℝ) - (j : ℝ)) * (y i - y j) =
          (i : ℝ) * y i - (i : ℝ) * y j - (j : ℝ) * y i + (j : ℝ) * y j :=
        fun j _ => by ring
      have e0 : (∑ _j ∈ Finset.range n, (i : ℝ) * y i) = (n : ℝ) * ((i : ℝ) * y i) := by
        rw [Finset.sum_const, Finset.card_range, nsmul_eq_mul]
      have e1 : (∑ j ∈ Finset.range n, (i : ℝ) * y j) = (i : ℝ) * C := by
        rw [← Finset.mul_sum]
      have e2 : (∑ j ∈ Finset.range n, (j : ℝ) * y i) = B * y i := by
        rw [← Finset.sum_mul]
      rw [Finset.sum_congr rfl hterm, Finset.sum_add_distrib, Finset.sum_sub_distrib,
        Finset.sum_sub_distrib, e0, e1, e2, ← hA]
    have f0 : (∑ _i ∈ Finset.range n, A) = (n : ℝ) * A := by
      rw [Finset.sum_const, Finset.card_range, nsmul_eq_mul]
    have f1 : (∑ i ∈ Finset.range n, (n : ℝ) * ((i : ℝ) * y i)) = (n : ℝ) * A := by
      rw [← Finset.mul_sum]
    have f2 : (∑ i ∈ Finset.range n, (i : ℝ) * C) = B * C := by
      rw [← Finset.sum_mul]
    have f3 : (∑ i ∈ Finset.range n, B * y i) = B * C := by
      rw [← Finset.mul_sum]
    rw [Finset.sum_congr rfl hin, Finset.sum_add_distrib, Finset.sum_sub_distrib,
      Finset.sum_sub_distrib, f0, f1, f2, f3]
    ring
  have hSpos : 0 < ∑ i ∈ Finset.range n, ∑ j ∈ Finset.range n,
      ((i : ℝ) - (j : ℝ)) * (y i - y j) := by
    rw [← Finset.sum_product']
    apply Finset.sum_pos'
    · rintro ⟨i, j⟩ hij
      simp only [Finset.mem_product, Finset.mem_range] at hij
      rcases lt_trichotomy i j with h | h | h
      · have hyij : y i < y j := hmono i j h hij.2
        have hij' : (i : ℝ) < j := by exact_mod_cast h
        nlinarith
      · subst h; simp
      · have hyij : y j < y i := hmono j i h hij.1
        have hij' : (j : ℝ) < i := by exact_mod_cast h
        nlinarith
    · refine ⟨(0, 1), ?_, ?_⟩
      · simp only [Finset.mem_product, Finset.mem_range]
        omega
      · have hy01 : y 0 < y 1 := hmono 0 1 (by omega) (by omega)
        have : ((0 : ℕ) : ℝ) - ((1 : ℕ) : ℝ) = -1 := by norm_num
        nlinarith
  have h2n : (0 : ℝ) < 2 * n := by
    have : (0 : ℝ) < n := lt_of_le_of_ne (by positivity) (Ne.symm hn0)
    linarith
  have hmul : regNum values * (2 * n) = 2 * n * A - 2 * B * C := by
    rw [hexp]
    field_simp
    ring
  nlinarith [hmul, hS ▸ hSpos, h2n]

/-- Embeds `linear_regression` in the generic `n ≥ 2` case. -/
theorem linear_regression_eval (values : List ℝ) (h2 : 2 ≤ values.length) :
    linear_regression values =
      (regNum values / regDen values,
       if ssTot values = 0 then 1.0
       else max 0 (1 - ssRes values (regNum values / regDen values) / ssTot values)) := by
  rw [linear_regression, if_neg (by omega), if_neg (ne_of_gt (regDen_pos values h2))]
  by_cases h0 : ssTot values = 0 <;> simp [h0]

theorem ssTot_nonneg (values : List ℝ) : 0 ≤ ssTot values := by
  rw [ssTot]
  apply List.sum_nonneg
  intro x hx
  obtain ⟨v, _, rfl⟩ := List.mem_map.mp hx
  exact sq_nonneg _

theorem ssRes_nonneg (values : List ℝ) (slope : ℝ) : 0 ≤ ssRes values slope :=
  Finset.sum_nonneg fun i _ => sq_nonneg _

/-- C5: for every composite-score series of at least the required length
(any `min_periods_required ≥ 2`; the default is 3): R² is 1 when
`SS_tot = 0` and `max 0 (1 − SS_res/SS_tot)` when `SS_tot > 0`; a strictly
monotonically increasing series has positive slope and R² in `[0, 1]`; a
constant series has slope 0 and R² = 1. -/
theorem C5_linear_regression (values : List ℝ) (hmin : 2 ≤ values.length) :
    (ssTot values = 0 → (linear_regression values).2 = 1) ∧
    (0 < ssTot values →
      (linear_regression values).2 =
        max 0 (1 - ssRes values ((linear_regression values).1) / ssTot values)) ∧
    ((∀ i j, i < j → j < values.length → values.getD i 0 < values.getD j 0) →
      0 < (linear_regression values).1 ∧
      0 ≤ (linear_regression values).2 ∧ (linear_regression values).2 ≤ 1) ∧
    ((∀ i, i < values.length → values.getD i 0 = values.getD 0 0) →
      (linear_regression values).1 = 0 ∧ (linear_regression values).2 = 1) := by
  have heval := linear_regression_eval values hmin
  have hn0 : (values.length : ℝ) ≠ 0 := by
    have : (0 : ℝ) < values.length := by exact_mod_cast (by omega : 0 < values.length)
    exact ne_of_gt this
  refine ⟨?_, ?_, ?_, ?_⟩
  · intro h0
    rw [heval]
    simp [h0]
    norm_num
  · intro hpos
    rw [heval]
    simp [Ne.symm (ne_of_gt hpos), ne_of_gt hpos]
  · intro hmono
    have hslope : (linear_regression values).1 = regNum values / regDen values := by
      rw [heval]
    refine ⟨?_, ?_, ?_⟩
    · rw [hslope]
      exact div_pos (regNum_pos_of_strictMono values hmin hmono) (regDen_pos values hmin)
    · rw [heval]
      by_cases h0 : ssTot values = 0
      · simp [h0]
        norm_num
      · simp only [if_neg h0]
        exact le_max_left 0 _
    · rw [heval]
      by_cases h0 : ssTot values = 0
      · simp [h0]
        norm_num
      · simp only [if_neg h0]
        have hq : 0 ≤ ssRes values (regNum values / regDen values) / ssTot values :=
          div_nonneg (ssRes_nonneg values _)
            (lt_of_le_of_ne (ssTot_nonneg values) (Ne.symm h0)).le
        exact max_le (by norm_num) (by linarith)
  · intro hconst
    have hym : listMean values = values.getD 0 0 := by
      rw [listMean_eq_range]
      rw [Finset.sum_congr rfl fun i hi => hconst i (Finset.mem_range.mp hi)]
      rw [Finset.sum_const, Finset.card_range, nsmul_eq_mul]
      field_simp
    have hnum : regNum values = 0 := by
      rw [regNum]
      apply Finset.sum_eq_zero
      intro i hi
      rw [hym, hconst i (Finset.mem_range.mp hi), sub_self, mul_zero]
    have htot : ssTot values = 0 := by
      rw [ssTot]
      apply List.sum_eq_zero
      intro x hx
      obtain ⟨v, hv, rfl⟩ := List.mem_map.mp hx
      obtain ⟨i, hi, hvi⟩ := List.mem_iff_getElem.mp hv
      have : v = values.getD 0 0 := by
        rw [← hvi, ← List.getD_eq_getElem values 0 hi]
        exact hconst i hi
      rw [this, hym, sub_self]
      norm_num
    rw [heval]
    simp [htot, hnum]
    norm_num

/-- Witness for C5 at concrete series: the strictly increasing `[0, 1, 3]`
has positive slope and R² within `[0, 1]`, and the constant `[5, 5, 5]` has
slope 0 and R² = 1. -/
theorem C5_linear_regression_witness :
    (0 < (linear_regression [0, 1, 3]).1 ∧
      0 ≤ (linear_regression [0, 1, 3]).2 ∧ (linear_regression [0, 1, 3]).2 ≤ 1) ∧
    ((linear_regression [5, 5, 5]).1 = 0 ∧ (linear_regression [5, 5, 5]).2 = 1) := by
  constructor
  · refine (C5_linear_regression [0, 1, 3] (by simp)).2.2.1 ?_
    intro i j hij hj
    have hj3 : j < 3 := by simpa using hj
    have hi3 : i < 3 := by omega
    interval_cases j <;> interval_cases i <;>
      first
      | omega
      | norm_num [List.getD]
  · refine (C5_linear_regression [5, 5, 5] (by simp)).2.2.2 ?_
    intro i hi
    have hi3 : i < 3 := by simpa using hi
    interval_cases i <;> norm_num [List.getD]

/-- The spec's description of the velocity z-score (for comparison with the
code): the current velocity z-scored against the mean and sample standard
deviation of all earlier velocities excluding the current point, the
standard deviation defaulting to 1 when fewer than 2 historical velocities
exist.  (With no earlier velocity at all, `listMean []` is `0/0 = 0` here;
the comparison theorems only rely on this at the 2-data-point boundary.) -/
noncomputable def specVelocityZscore (values : List ℝ) : ℝ :=
  let vels := velocities values
  let current := vels.getLastD 0
  let hist := vels.dropLast
  let hist_std := if hist.length < 2 then 1 else stdev hist
  (current - listMean hist) / hist_std

theorem velocities_length (values : List ℝ) :
    (velocities values).length = values.length - 1 := by
  rw [velocities, List.length_zipWith, List.length_tail]
  omega

/-- The concrete 3-period series of the spec's velocity example scenario:
fears z-sums `[0, 0, 10]`, frustrations and optimism all zero (hence
composite `[0, 0, -10]`). -/
noncomputable def scenarioPoint (d : String) (f : ℝ) : DailySentimentScore :=
  { date := d
    fears_count := 1
    frustrations_count := 0
    optimism_count := 0
    total_quotes := 1
    fears_zscore_sum := f
    frustrations_zscore_sum := 0
    optimism_zscore_sum := 0
    negativity_score := f
    positivity_score := 0
    composite_score := -f
    ema_score := Option.none
    ema_negativity := Option.none
    ema_positivity := Option.none
    total_engagement := 0
    avg_engagement := 0 }

/-- The scenario time series (summary fields are irrelevant to the
velocity calculator). -/
noncomputable def scenarioSeries : SentimentTimeSeries :=
  { start_date := "2025-01-01"
    end_date := "2025-01-03"
    data_points := [scenarioPoint "2025-01-01" 0, scenarioPoint "2025-01-02" 0,
      scenarioPoint "2025-01-03" 10]
    mean_score := 0
    std_dev := 0
    min_score := 0
    max_score := 0
    overall_trend := .stable
    trend_slope := 0
    trend_r_squared := 0 }

/-- C4 (amended at the 2-point boundary): for series of at least 3 data
points the velocity z-score is exactly the spec's leave-last-out formula;
for a series of exactly 2 data points the code z-scores the sole velocity
against itself, yielding 0; and in the `[0, 0, 10]` fears scenario the
fears velocity z-score is 10, its severity is `alert` under the default
thresholds, and exactly one alert is emitted for the fears metric, with
direction `rising`. -/
theorem C4_velocity_zscore :
    (∀ (ops : FloatOps) (config : AnalyticsConfig) (name : String) (values : List ℝ)
      (category : Option String) (d : String), 3 ≤ values.length →
      (calculate_metric ops config name values category d).1.velocity_zscore =
        specVelocityZscore values) ∧
    (∀ (ops : FloatOps) (config : AnalyticsConfig) (name : String) (values : List ℝ)
      (category : Option String) (d : String), values.length = 2 →
      (calculate_metric ops config name values category d).1.velocity_zscore = 0) ∧
    (∀ ops : FloatOps,
      ((velocityCalculate ops defaultConfig scenarioSeries).metrics.getD 1
        default).velocity_zscore = 10 ∧
      ((velocityCalculate ops defaultConfig scenarioSeries).metrics.getD 1
        default).alert_level = AlertSeverity.alert ∧
      ((velocityCalculate ops defaultConfig scenarioSeries).alerts.filter
        (fun a => a.metric == "fears_zscore_sum")).length = 1 ∧
      ∀ a ∈ (velocityCalculate ops defaultConfig scenarioSeries).alerts.filter
        (fun a => a.metric == "fears_zscore_sum"),
        a.direction = TrendDirection.rising) := by
  refine ⟨?_, ?_, ?_⟩
  · intro ops config name values category d h3
    have hlv : (velocities values).length = values.length - 1 := velocities_length values
    have h2 : ¬ values.length < 2 := by omega
    have hv1 : (velocities values).length > 1 := by omega
    rw [calculate_metric, if_neg h2]
    simp only [if_pos hv1]
    rw [specVelocityZscore]
    by_cases hh : (velocities values).dropLast.length < 2
    · simp only [if_pos hh, if_neg (by omega : ¬ (velocities values).dropLast.length > 1)]
      norm_num
    · simp only [if_neg hh, if_pos (by omega : (velocities values).dropLast.length > 1)]
      by_cases hs : stdev (velocities values).dropLast > 0
      · rw [if_pos hs]
      · rw [if_neg hs]
        have hz : stdev (velocities values).dropLast = 0 :=
          le_antisymm (not_lt.mp hs) (Real.sqrt_nonneg _)
        rw [hz, div_zero]
  · intro ops config name values category d hlen
    have hlv : (velocities values).length = 1 := by rw [velocities_length, hlen]
    obtain ⟨e, he⟩ := List.length_eq_one.mp hlv
    rw [calculate_metric, if_neg (by omega)]
    simp only [he, (by norm_num : ¬ ([e].length > 1))]
    simp [listMean]
  · intro ops
    have hdF : metricValues scenarioSeries.data_points "fears_zscore_sum" = [0, 0, 10] := by
      norm_num [metricValues, scenarioSeries, scenarioPoint]
    have hdC : metricValues scenarioSeries.data_points "composite_score" = [0, 0, -10] := by
      norm_num [metricValues, scenarioSeries, scenarioPoint]
    have hdFr : metricValues scenarioSeries.data_points "frustrations_zscore_sum" =
        [0, 0, 0] := by
      norm_num [metricValues, scenarioSeries, scenarioPoint]
    have hdO : metricValues scenarioSeries.data_points "optimism_zscore_sum" =
        [0, 0, 0] := by
      rfl
    have hMF : calculate_metric ops defaultConfig "fears_zscore_sum" [0, 0, 10]
        (some "fears") "2025-01-03" =
        ({ metric_name := "fears_zscore_sum", current_value := 10, velocity := 10,
           velocity_zscore := 10, acceleration := 10, historical_mean := 0,
           historical_std := 1, alert_level := .alert },
         some (create_alert ops defaultConfig "fears_zscore_sum" (some "fears")
           10 0 10 "2025-01-03")) := by
      norm_num [calculate_metric, velocities, listMean, get_alert_severity, defaultConfig]
    have hMC : calculate_metric ops defaultConfig "composite_score" [0, 0, -10]
        Option.none "2025-01-03" =
        ({ metric_name := "composite_score", current_value := -10, velocity := -10,
           velocity_zscore := -10, acceleration := -10, historical_mean := 0,
           historical_std := 1, alert_level := .alert },
         some (create_alert ops defaultConfig "composite_score" Option.none
           (-10) 0 (-10) "2025-01-03")) := by
      norm_num [calculate_metric, velocities, listMean, get_alert_severity, defaultConfig]
    have hM0 : ∀ name : String, ∀ cat : Option String,
        calculate_metric ops defaultConfig name [0, 0, 0] cat "2025-01-03" =
        ({ metric_name := name, current_value := 0, velocity := 0,
           velocity_zscore := 0, acceleration := 0, historical_mean := 0,
           historical_std := 1, alert_level := .none }, Option.none) := by
      intro name cat
      norm_num [calculate_metric, velocities, listMean, get_alert_severity, defaultConfig]
      exact fun h => absurd h (by decide)
    have hrpt : velocityCalculate ops defaultConfig scenarioSeries =
        { report_date := "2025-01-03"
          lookback_days := 3
          metrics :=
            [{ metric_name := "composite_score", current_value := -10, velocity := -10,
               velocity_zscore := -10, acceleration := -10, historical_mean := 0,
               historical_std := 1, alert_level := .alert },
             { metric_name := "fears_zscore_sum", current_value := 10, velocity := 10,
               velocity_zscore := 10, acceleration := 10, historical_mean := 0,
               historical_std := 1, alert_level := .alert },
             { metric_name := "frustrations_zscore_sum", current_value := 0, velocity := 0,
               velocity_zscore := 0, acceleration := 0, historical_mean := 0,
               historical_std := 1, alert_level := .none },
             { metric_name := "optimism_zscore_sum", current_value := 0, velocity := 0,
               velocity_zscore := 0, acceleration := 0, historical_mean := 0,
               historical_std := 1, alert_level := .none }]
          alerts :=
            [create_alert ops defaultConfig "composite_score" Option.none
               (-10) 0 (-10) "2025-01-03",
             create_alert ops defaultConfig "fears_zscore_sum" (some "fears")
               10 0 10 "2025-01-03"]
          total_alerts := 2
          alert_count := 2
          warning_count := 0 } := by
      have hsevC : (create_alert ops defaultConfig "composite_score" Option.none
          (-10) 0 (-10) "2025-01-03").severity = AlertSeverity.alert := by
        norm_num [create_alert, get_alert_severity, defaultConfig]
      have hsevF : (create_alert ops defaultConfig "fears_zscore_sum" (some "fears")
          10 0 10 "2025-01-03").severity = AlertSeverity.alert := by
        norm_num [create_alert, get_alert_severity, defaultConfig]
      rw [velocityCalculate]
      simp only [METRIC_CONFIGS, List.map_cons, List.map_nil]
      rw [(show (scenarioSeries.data_points.getLastD default).date = "2025-01-03"
        from rfl), hdF, hdC, hdFr, hdO, hMF, hMC, hM0, hM0]
      simp only [List.map_cons, List.map_nil, List.filterMap_cons, List.filterMap_nil,
        sort_alerts, insertAlert, severityOrder, hsevC, hsevF]
      norm_num [List.filter, hsevC, hsevF, scenarioSeries]
      refine ⟨by norm_num [defaultConfig], ?_⟩
      simp [eq_false (by decide : ¬ (AlertSeverity.alert = AlertSeverity.warning))]
    refine ⟨?_, ?_, ?_, ?_⟩
    · rw [hrpt]
      rfl
    · rw [hrpt]
      rfl
    · rw [hrpt]
      have hmC : (create_alert ops defaultConfig "composite_score" Option.none
          (-10) 0 (-10) "2025-01-03").metric = "composite_score" := rfl
      have hmF : (create_alert ops defaultConfig "fears_zscore_sum" (some "fears")
          10 0 10 "2025-01-03").metric = "fears_zscore_sum" := rfl
      simp [List.filter, hmC, hmF,
        (by decide : ("composite_score" == "fears_zscore_sum") = false),
        (by decide : ("fears_zscore_sum" == "fears_zscore_sum") = true)]
    · intro a ha
      rw [hrpt] at ha
      have hmC : (create_alert ops defaultConfig "composite_score" Option.none
          (-10) 0 (-10) "2025-01-03").metric = "composite_score" := rfl
      have hmF : (create_alert ops defaultConfig "fears_zscore_sum" (some "fears")
          10 0 10 "2025-01-03").metric = "fears_zscore_sum" := rfl
      simp only [List.filter, hmC, hmF,
        (by decide : ("composite_score" == "fears_zscore_sum") = false),
        (by decide : ("fears_zscore_sum" == "fears_zscore_sum") = true)] at ha
      norm_num at ha
      rw [ha]
      norm_num [create_alert]

/-- Counterexample for C4 as stated: at exactly 2 data points (claim says
"at least 2"), the code's historical sample is the current velocity itself,
so its z-score is 0, while the spec's leave-last-out formula gives the raw
velocity (here 5). -/
theorem C4_velocity_zscore_counterexample :
    (calculate_metric zeroOps defaultConfig "composite_score" [0, 5] Option.none
      "2025-01-02").1.velocity_zscore = 0 ∧
    specVelocityZscore [0, 5] = 5 ∧ (0 : ℝ) ≠ 5 := by
  refine ⟨?_, ?_, by norm_num⟩
  · norm_num [calculate_metric, velocities, listMean, get_alert_severity, defaultConfig]
  · norm_num [specVelocityZscore, velocities, listMean]

/-- Witness for C4 at a concrete 3-point series: the code's velocity
z-score equals the spec formula and evaluates to 10. -/
theorem C4_velocity_zscore_witness :
    (calculate_metric zeroOps defaultConfig "fears_zscore_sum" [0, 0, 10]
      (some "fears") "2025-01-03").1.velocity_zscore = specVelocityZscore [0, 0, 10] ∧
    specVelocityZscore [0, 0, 10] = 10 := by
  refine ⟨C4_velocity_zscore.1 zeroOps defaultConfig "fears_zscore_sum" [0, 0, 10]
    (some "fears") "2025-01-03" (by norm_num), ?_⟩
  norm_num [specVelocityZscore, velocities, listMean]

theorem roundHalfEven_intCast (k : ℤ) : roundHalfEven (k : ℝ) = k := by
  rw [roundHalfEven, Int.floor_intCast]
  norm_num

theorem round2_of_bounds (z : ℝ) (k : ℤ) (h1 : (k : ℝ) - 1 / 2 < 100 * z)
    (h2 : 100 * z < (k : ℝ) + 1 / 2) : round2 z = (k : ℝ) / 100 := by
  rw [round2]
  have hr : roundHalfEven (100 * z) = k := by
    rcases le_or_lt (k : ℝ) (100 * z) with hle | hlt
    · have hf : ⌊100 * z⌋ = k := by
        rw [Int.floor_eq_iff]
        exact ⟨hle, by linarith⟩
      rw [roundHalfEven, hf, if_pos (by linarith)]
    · have hf : ⌊100 * z⌋ = k - 1 := by
        rw [Int.floor_eq_iff]
        constructor
        · push_cast; linarith
        · push_cast; linarith
      rw [roundHalfEven, hf, if_neg (by push_cast; linarith),
        if_pos (by push_cast; linarith)]
      omega
  rw [hr]

theorem round2_neg_two_half : round2 (-2.5) = -2.5 := by
  rw [round2, (show (100 : ℝ) * (-2.5) = ((-250 : ℤ) : ℝ) by norm_num),
    roundHalfEven_intCast]
  norm_num

theorem round2_zero : round2 0 = 0 := by
  rw [round2, (show (100 : ℝ) * 0 = ((0 : ℤ) : ℝ) by norm_num), roundHalfEven_intCast]
  norm_num

theorem round2_two_half : round2 2.5 = 2.5 := by
  rw [round2, (show (100 : ℝ) * 2.5 = ((250 : ℤ) : ℝ) by norm_num),
    roundHalfEven_intCast]
  norm_num

/-- Counterexample for C7 as stated: with counts `{mild 0, moderate 0,
strong 10}` the moderate midpoint percentile is 0 (at or below the open
interval), but the code returns 0 for it, not the claimed −2.5 clamp (the
probit parameter is the constant 7 here, so a 0 result can only come from
the fallback branch, not from the probit). -/
theorem C7_probit_counterexample :
    compute_z_scores (fun _ => (7 : ℝ)) ⟨0, 0, 10⟩ =
      .ok ⟨-2.5, 0, 7⟩ ∧ ((0 : ℝ) ≠ -2.5) := by
  constructor
  · rw [compute_z_scores, if_neg (by decide)]
    rw [(show midPercentiles ⟨0, 0, 10⟩ = (0, 0, 1 / 2) by
      norm_num [midPercentiles, IntensityCounts.total])]
    norm_num [round2_neg_two_half, round2_zero]
    constructor
    · rw [round2, (show (100 : ℝ) * (-(5 / 2)) = ((-250 : ℤ) : ℝ) by norm_num),
        roundHalfEven_intCast]
      norm_num
    · rw [round2, (show (100 : ℝ) * 7 = ((700 : ℤ) : ℝ) by norm_num),
        roundHalfEven_intCast]
      norm_num
  · norm_num

/-- C7, amended to the code's actual clamps: `mild` is clamped to −2.5 when
its midpoint percentile is ≤ 0, `moderate` falls back to 0 (not ±2.5) when
its midpoint is outside the open interval (0, 1), `strong` is clamped to
+2.5 when its midpoint is ≥ 1, and midpoints strictly inside (0, 1) go
through the probit (rounded to 2 decimals); counts `{mild 50, moderate 30,
strong 20}` give midpoints 0.25, 0.65, 0.90 and z-scores −0.67, 0.39, 1.28
for any probit accurate near those points. -/
theorem C7_probit_midpoints :
    (∀ (ppf : ℚ → ℝ) (counts : IntensityCounts) (z : IntensityConfig),
      compute_z_scores ppf counts = .ok z →
      ((midPercentiles counts).1 ≤ 0 → z.mild = -2.5) ∧
      (0 < (midPercentiles counts).1 → z.mild = round2 (ppf (midPercentiles counts).1)) ∧
      (¬ (0 < (midPercentiles counts).2.1 ∧ (midPercentiles counts).2.1 < 1) →
        z.moderate = 0) ∧
      (0 < (midPercentiles counts).2.1 → (midPercentiles counts).2.1 < 1 →
        z.moderate = round2 (ppf (midPercentiles counts).2.1)) ∧
      (1 ≤ (midPercentiles counts).2.2 → z.strong = 2.5) ∧
      ((midPercentiles counts).2.2 < 1 → z.strong = round2 (ppf (midPercentiles counts).2.2))) ∧
    (midPercentiles ⟨50, 30, 20⟩ = (1 / 4, 13 / 20, 9 / 10)) ∧
    (∀ ppf : ℚ → ℝ,
      -0.675 < ppf (1 / 4) → ppf (1 / 4) < -0.665 →
      0.385 < ppf (13 / 20) → ppf (13 / 20) < 0.395 →
      1.275 < ppf (9 / 10) → ppf (9 / 10) < 1.285 →
      compute_z_scores ppf ⟨50, 30, 20⟩ = .ok ⟨-0.67, 0.39, 1.28⟩) := by
  have hmid : midPercentiles ⟨50, 30, 20⟩ = (1 / 4, 13 / 20, 9 / 10) := by
    norm_num [midPercentiles, IntensityCounts.total]
  refine ⟨?_, hmid, ?_⟩
  · intro ppf counts z hok
    by_cases htot : counts.total = 0
    · rw [compute_z_scores, if_pos htot] at hok
      exact absurd hok (by simp)
    · rw [compute_z_scores, if_neg htot] at hok
      simp only [Except.ok.injEq] at hok
      rw [← hok]
      refine ⟨?_, ?_, ?_, ?_, ?_, ?_⟩
      · intro h
        simp only [if_neg (not_lt.mpr h)]
        exact round2_neg_two_half
      · intro h
        simp only [if_pos h]
      · intro h
        simp only [if_neg h]
        exact round2_zero
      · intro h1 h2
        simp only [if_pos (And.intro h1 h2)]
      · intro h
        simp only [if_neg (not_lt.mpr h)]
        exact round2_two_half
      · intro h
        simp only [if_pos h]
  · intro ppf hb1 hb2 hb3 hb4 hb5 hb6
    rw [compute_z_scores, if_neg (by decide), hmid]
    norm_num
    refine ⟨?_, ?_, ?_⟩
    · rw [round2_of_bounds (ppf (1 / 4)) (-67) (by push_cast; linarith)
        (by push_cast; linarith)]
      norm_num
    · rw [round2_of_bounds (ppf (13 / 20)) 39 (by push_cast; linarith)
        (by push_cast; linarith)]
      norm_num
    · rw [round2_of_bounds (ppf (9 / 10)) 128 (by push_cast; linarith)
        (by push_cast; linarith)]
      norm_num

/-- A concrete rational-valued stand-in for the probit, agreeing with
`Φ⁻¹` to 4 decimals at the three midpoints of the worked example. -/
noncomputable def ppfExample : ℚ → ℝ := fun q =>
  if q = 1 / 4 then -0.6745 else if q = 13 / 20 then 0.3853 else 1.2816

/-- Witness for C7 (amended) at the concrete example calibration. -/
theorem C7_probit_midpoints_witness :
    compute_z_scores ppfExample ⟨50, 30, 20⟩ = .ok ⟨-0.67, 0.39, 1.28⟩ ∧
    midPercentiles ⟨50, 30, 20⟩ = (1 / 4, 13 / 20, 9 / 10) := by
  have h1 : ppfExample (1 / 4) = -0.6745 := by norm_num [ppfExample]
  have h2 : ppfExample (13 / 20) = 0.3853 := by norm_num [ppfExample]
  have h3 : ppfExample (9 / 10) = 1.2816 := by norm_num [ppfExample]
  exact ⟨C7_probit_midpoints.2.2 ppfExample (by rw [h1]; norm_num) (by rw [h1]; norm_num)
    (by rw [h2]; norm_num) (by rw [h2]; norm_num) (by rw [h3]; norm_num)
    (by rw [h3]; norm_num), C7_probit_midpoints.2.1⟩

/-- A 2-day input whose first day has identical (all-zero) engagement but
whose global engagement distribution is non-degenerate. -/
def c8Days : List DayData :=
  [⟨"2025-01-01", [⟨0, "mild"⟩, ⟨0, "mild"⟩, ⟨0, "mild"⟩], [], []⟩,
   ⟨"2025-01-02", [⟨8, "mild"⟩], [], []⟩]

/-- Counterexample for C8 as stated: engagement statistics are computed
globally across all periods (`_compute_engagement_stats`), so a period in
which every quote has identical engagement does not get zero z-scores.
Here day 1's quotes all have engagement 0, yet the global stats are
mean 2, std 4, and day 1's engagement z-score is −1/2 ≠ 0 (the default
floor −2 does not clamp it). -/
theorem C8_engagement_z_counterexample :
    compute_engagement_stats c8Days = ⟨2, 4⟩ ∧
    calculate_engagement_z 0 (compute_engagement_stats c8Days) defaultConfig = -(1 / 2) ∧
    (-(1 / 2) : ℝ) ≠ 0 := by
  have hsqrt : Real.sqrt 16 = 4 := by
    rw [(show (16 : ℝ) = 4 ^ 2 by norm_num), Real.sqrt_sq (by norm_num : (0 : ℝ) ≤ 4)]
  have hstats : compute_engagement_stats c8Days = ⟨2, 4⟩ := by
    rw [compute_engagement_stats]
    norm_num [c8Days, DayData.allQuotes, listMean, stdev, sampleVar]
    norm_num [(show ((0 : ℝ) - 2) ^ 2 = 4 by norm_num)]
    exact hsqrt
  refine ⟨hstats, ?_, by norm_num⟩
  rw [hstats]
  norm_num [calculate_engagement_z, defaultConfig, max_def]

/-- C8, amended: the clamped engagement z-score is always at least the
configured floor; when the engagement standard deviation handed to the
builder is 0, every quote's z-score is `max 0 floor` — which is 0 exactly
when the floor is ≤ 0 (the default is −2).  Identical engagement within a
single period is not by itself sufficient for zero z-scores, because the
statistics are computed across all periods. -/
theorem C8_engagement_z_floor :
    (∀ (e : ℤ) (stats : EngagementStats) (config : AnalyticsConfig),
      config.engagement.z_floor ≤ calculate_engagement_z e stats config) ∧
    (∀ (e : ℤ) (stats : EngagementStats) (config : AnalyticsConfig),
      stats.std = 0 → calculate_engagement_z e stats config =
        max 0 config.engagement.z_floor) ∧
    (∀ (e : ℤ) (stats : EngagementStats) (config : AnalyticsConfig),
      stats.std = 0 → config.engagement.z_floor ≤ 0 →
      calculate_engagement_z e stats config = 0) := by
  refine ⟨?_, ?_, ?_⟩
  · intro e stats config
    exact le_max_right _ _
  · intro e stats config hstd
    rw [calculate_engagement_z]
    simp only [hstd, lt_irrefl, if_neg, if_false, ite_false]
  · intro e stats config hstd hfloor
    rw [calculate_engagement_z]
    simp only [hstd, lt_irrefl, if_neg, if_false, ite_false]
    norm_num [max_eq_left hfloor]

/-- Witness for C8 (amended) at concrete inputs: with unit std the clamp
keeps z above the default floor, and with zero std the z-score is 0. -/
theorem C8_engagement_z_floor_witness :
    defaultConfig.engagement.z_floor ≤ calculate_engagement_z 5 ⟨0, 1⟩ defaultConfig ∧
    calculate_engagement_z 7 ⟨3, 0⟩ defaultConfig = 0 := by
  refine ⟨C8_engagement_z_floor.1 5 ⟨0, 1⟩ defaultConfig, ?_⟩
  exact C8_engagement_z_floor.2.2 7 ⟨3, 0⟩ defaultConfig rfl
    (by norm_num [defaultConfig])

end KopiSentiment
